import Mathlib

/-!
Verification of the query-orchestration layer of the UCSB-Datathon-2026
repository against its natural-language specification.

The Python sources under `src/backend/` are shallowly embedded:

* `rag/sql_engine.py`   — an in-memory SQLite database over two tables is
  modelled as lists of records; each `query_*` function is modelled as a Lean
  function executing the same relational algebra (filter / join / group-by /
  aggregate / order-by / limit) and the same string rendering.  SQLite REAL
  arithmetic is idealized by exact rationals (`ℚ`); `ROUND(x, d)` is SQLite's
  round-half-away-from-zero, Python's `round`/`:.0f` formatting is
  round-half-to-even.  Functions that can raise (because they interpolate an
  empty WHERE clause or an empty IN list into the SQL text, which SQLite
  rejects with a syntax error) return `Except String String`.
* `rag/query_router.py` — keyword matching uses Python's substring `in`
  operator, modelled on character lists; `re.findall(r'\b([A-Z]{2})\b', ...)`
  is modelled by maximal word-character runs (exact for the ASCII questions
  the router receives).
* `rag/retriever.py`    — the ChromaDB collection is external; its response
  (documents / metadatas / distances) is an input, with Chroma's documented
  contract (equal lengths, ascending cosine distances in [0, 2], at most
  `n_results` rows) taken as hypotheses.  The retriever's own computation
  (filter construction, `n_results`, `1 - distance` rounded to 4 places) is
  modelled from the source.
* `rag/prompts.py` and `services/chat_service.py` — audience resolution.
* `routers/chat.py`     — the SSE `event_generator`; the upstream token
  iterator either completes or raises after a prefix of tokens.
-/

/-! ### Python-style string primitives -/

/-- Lowercase every character (Python `str.lower`, ASCII-exact). -/
def pyLower (s : String) : String := String.mk (s.data.map Char.toLower)

/-- Uppercase every character (Python `str.upper`, ASCII-exact). -/
def pyUpper (s : String) : String := String.mk (s.data.map Char.toUpper)

/-- Boolean prefix test on character lists. -/
def isPrefixCh : List Char → List Char → Bool
  | [], _ => true
  | _ :: _, [] => false
  | a :: as, b :: bs => a == b && isPrefixCh as bs

/-- Boolean infix (substring) test on character lists. -/
def isInfixCh (needle : List Char) : List Char → Bool
  | [] => needle.isEmpty
  | c :: rest => isPrefixCh needle (c :: rest) || isInfixCh needle rest

/-- Python's `needle in hay` on strings. -/
def pyIn (needle hay : String) : Bool := isInfixCh needle.data hay.data

/-- Python truthiness of an optional string: `None` and `""` are falsy. -/
def pyTruthy : Option String → Bool
  | none => false
  | some s => !s.isEmpty

/-- Python `a or b` for optional strings (left value when truthy). -/
def pyOrOpt (a b : Option String) : Option String :=
  if pyTruthy a then a else b

/-- Python `str.replace(old, new)` for single characters. -/
def pyReplaceChar (s : String) (old new : Char) : String :=
  String.mk (s.data.map (fun c => if c = old then new else c))

/-- Python `str.title()`: uppercase each letter that follows a non-letter,
lowercase the rest. -/
def pyTitleGo : Bool → List Char → List Char
  | _, [] => []
  | prevAlpha, c :: cs =>
    if c.isAlpha then
      (if prevAlpha then c.toLower else c.toUpper) :: pyTitleGo true cs
    else
      c :: pyTitleGo false cs

/-- Python `str.title()`. -/
def pyTitle (s : String) : String := String.mk (pyTitleGo false s.data)

/-- Left-justify to width `w` (Python `f"{s:<w}"`). -/
def padRight (s : String) (w : Nat) : String :=
  s ++ String.mk (List.replicate (w - s.length) ' ')

/-- Right-justify to width `w` (Python `f"{s:>w}"`). -/
def padLeft (s : String) (w : Nat) : String :=
  String.mk (List.replicate (w - s.length) ' ') ++ s

/-! ### Rounding and numeric formatting -/

/-- Round to the nearest integer, ties to even (Python `round` / `format`). -/
def roundHalfEven (x : ℚ) : ℤ :=
  if x - (⌊x⌋ : ℚ) < 1/2 then ⌊x⌋
  else if 1/2 < x - (⌊x⌋ : ℚ) then ⌊x⌋ + 1
  else if (⌊x⌋ : ℤ) % 2 = 0 then ⌊x⌋ else ⌊x⌋ + 1

/-- Round to the nearest integer, ties away from zero (SQLite `ROUND`). -/
def roundHalfAway (x : ℚ) : ℤ :=
  if 0 ≤ x then ⌊x + 1/2⌋ else -⌊-x + 1/2⌋

/-- Python `round(x, d)` on a rational (ties to even). -/
def pyRound (d : Nat) (x : ℚ) : ℚ :=
  (roundHalfEven (x * (10 : ℚ) ^ d) : ℚ) / (10 : ℚ) ^ d

/-- SQLite `ROUND(x, d)` on a rational (ties away from zero). -/
def sqliteRound (d : Nat) (x : ℚ) : ℚ :=
  (roundHalfAway (x * (10 : ℚ) ^ d) : ℚ) / (10 : ℚ) ^ d

/-- Sum of a list of rationals. -/
def qSum (l : List ℚ) : ℚ := l.foldr (· + ·) 0

/-- SQL `AVG`: `none` on the empty list, otherwise the mean. -/
def qAvg (l : List ℚ) : Option ℚ :=
  if l.isEmpty then none else some (qSum l / (l.length : ℚ))

/-- Maximum of a nonempty list given as head and tail. -/
def qMaxD (a : ℚ) (l : List ℚ) : ℚ := l.foldl max a

/-- Minimum of a nonempty list given as head and tail. -/
def qMinD (a : ℚ) (l : List ℚ) : ℚ := l.foldl min a

/-- The `k` decimal digits of `n` (most significant first, leading zeros). -/
def digitsFixed : Nat → Nat → List Char
  | 0, _ => []
  | k + 1, n => Char.ofNat (48 + n / 10 ^ k % 10) :: digitsFixed k n

/-- Drop trailing zeros but keep at least one digit. -/
def trimZeros (l : List Char) : List Char :=
  let r := l.reverse.dropWhile (· = '0')
  if r.isEmpty then ['0'] else r.reverse

/-- Render a non-negative rational with a terminating decimal expansion the
way Python prints the corresponding float (`4` ↦ `"4.0"`, `28/5` ↦ `"5.6"`).
All rendered values in this development come out of `ROUND(·, d)` with
`d ≤ 2`, so six fractional digits are always exact. -/
def fmtFloatNN (q : ℚ) : String :=
  toString (⌊q * 1000000⌋ / 1000000) ++ "." ++
    String.mk (trimZeros (digitsFixed 6 ((⌊q * 1000000⌋ : ℤ) % 1000000).toNat))

/-- Render a rational the way Python prints the corresponding float. -/
def fmtFloat (q : ℚ) : String :=
  if q < 0 then "-" ++ fmtFloatNN (-q) else fmtFloatNN q

/-- Python `f"{x:.0f}"`: round half to even, print as an integer. -/
def fmtFixed0 (q : ℚ) : String := toString (roundHalfEven q)

/-- Python `f"{x}"` where `x` is float-or-`None` (an SQL aggregate that may
be NULL): `None` prints as the string `"None"`. -/
def fmtOptFloat : Option ℚ → String
  | none => "None"
  | some q => fmtFloat q

/-! ### Relational helpers: GROUP BY keys and ORDER BY ... DESC

SQLite's scan / tie order is unspecified; the model fixes the deterministic
refinement `first appearance` for group keys and a stable insertion sort for
`ORDER BY ... DESC`.  None of the verified properties depend on the tie
order. -/

/-- Keys in order of first appearance, duplicates removed (SQL `GROUP BY`). -/
def uniqueKeys {κ : Type} [DecidableEq κ] : List κ → List κ
  | [] => []
  | k :: ks => k :: (uniqueKeys ks).filter (fun k2 => decide (k2 ≠ k))

/-- Stable descending insertion by a rational sort key. -/
def insertDescBy {α : Type} (f : α → ℚ) (a : α) : List α → List α
  | [] => [a]
  | b :: bs => if f b < f a then a :: b :: bs else b :: insertDescBy f a bs

/-- Stable descending insertion sort (SQL `ORDER BY f DESC`). -/
def sortDescBy {α : Type} (f : α → ℚ) : List α → List α
  | [] => []
  | a :: as => insertDescBy f a (sortDescBy f as)

/-! ### SSE streaming (`src/backend/routers/chat.py`, `event_generator`)

The inner `chat_stream` async iterator either yields all its tokens and
completes, or raises an exception after yielding a prefix of them; both
behaviours are captured by a token prefix plus a `SourceEnd`.  The
generator's `try/except/finally` then determines the emitted SSE events. -/

/-- How the upstream token iterator ends: normal completion, or an exception
with message `msg` raised after the yielded prefix. -/
inductive SourceEnd where
  | completed : SourceEnd
  | failed : String → SourceEnd

/-- The newline escaping applied to each token
(`token.replace("\n", "\\n")`). -/
def escapeNewlines (s : String) : String :=
  String.mk (s.data.flatMap (fun c => if c = '\n' then ['\\', 'n'] else [c]))

/-- One SSE data event for a content token. -/
def sseEvent (t : String) : String := "data: " ++ escapeNewlines t ++ "\n\n"

/-- The SSE error event produced by the `except` clause. -/
def sseError (e : String) : String := "data: [ERROR] " ++ e ++ "\n\n"

/-- The SSE completion sentinel produced by the `finally` clause. -/
def sseDone : String := "data: [DONE]\n\n"

/-- Model of `event_generator`: the `try` body yields one event per token,
the `except` clause yields a single error event when the source raised, and
the `finally` clause always yields the completion sentinel last. -/
def event_generator (tokens : List String) (ending : SourceEnd) : List String :=
  tokens.map sseEvent ++
    (match ending with
      | .completed => []
      | .failed e => [sseError e]) ++
    [sseDone]

/-! ### Audience resolution (`src/backend/rag/prompts.py`)

`build_system_prompt` (and, with the identical expression, `chat_stream` in
`src/backend/services/chat_service.py`) resolves the audience as
`audience_type if audience_type in AUDIENCE_TYPES else
detect_audience(job_title, question)`. -/

/-- The closed audience enum (`AUDIENCE_TYPES`); membership of a Python set
of strings is order-independent, so a list with `contains` is faithful. -/
def AUDIENCE_TYPES : List String :=
  ["worker", "employer", "policymaker", "investor", "insurer", "unknown"]

/-- Insurer keyword fragments tested first by `detect_audience`. -/
def INSURER_KEYWORDS : List String := ["insur", "actuar", "underwrite", "reinsur"]

/-- Investor keyword fragments tested second. -/
def INVESTOR_KEYWORDS : List String :=
  ["investor", "portfolio", "real estate fund", "analyst", "fund manager"]

/-- Policymaker keyword fragments tested third. -/
def POLICYMAKER_KEYWORDS : List String :=
  ["mayor", "planner", "policy", "city council", "government", "agency director", "official"]

/-- Employer keyword fragments tested fourth. -/
def EMPLOYER_KEYWORDS : List String :=
  ["owner", "employer", "ceo", "hr ", "hiring manager", "workforce manager", "operations manager"]

/-- The haystack `f"{job_title or ''} {question or ''}".lower()`. -/
def audienceText (job_title question : Option String) : String :=
  pyLower (job_title.getD "" ++ " " ++ question.getD "")

/-- Model of `detect_audience`: `unknown` when both inputs are falsy, else
the first keyword set that matches, else `worker`. -/
def detect_audience (job_title question : Option String) : String :=
  if !pyTruthy job_title && !pyTruthy question then "unknown"
  else
    if INSURER_KEYWORDS.any (fun k => pyIn k (audienceText job_title question)) then "insurer"
    else if INVESTOR_KEYWORDS.any (fun k => pyIn k (audienceText job_title question)) then "investor"
    else if POLICYMAKER_KEYWORDS.any (fun k => pyIn k (audienceText job_title question)) then "policymaker"
    else if EMPLOYER_KEYWORDS.any (fun k => pyIn k (audienceText job_title question)) then "employer"
    else "worker"

/-- Model of the audience-resolution expression shared by
`build_system_prompt` and `chat_stream`: a caller-supplied audience is used
iff it is a member of `AUDIENCE_TYPES` (`None` is not a member). -/
def resolve_audience (audience_type job_title question : Option String) : String :=
  match audience_type with
  | some a => if AUDIENCE_TYPES.contains a then a else detect_audience job_title question
  | none => detect_audience job_title question

/-! ### Retrieval engine (`src/backend/rag/retriever.py`)

The ChromaDB collection is an external dependency: the model covers the
filter the retriever constructs, the `n_results` computation, and the
post-processing of the index's response.  Chroma's `where` filters here are
always a `$or` of single-field `$eq` tests, modelled as `List MetaCond`. -/

/-- Chunk metadata per the ingestion schema (`rag/ingest.py`): a `category`,
optional `state` / `disaster_type` tags (keys absent when untagged, hence
`Option`), and a `source` label. -/
structure ChunkMeta where
  category : String
  state : Option String
  disaster_type : Option String
  source : String
deriving DecidableEq, Repr

/-- One `{field: {"$eq": v}}` clause of a Chroma `$or` filter. -/
inductive MetaCond where
  | stateEq (v : String)
  | disasterEq (v : String)
  | categoryEq (v : String)
deriving DecidableEq, Repr

/-- Chroma `$eq` semantics: an absent metadata key never matches. -/
def condHolds (m : ChunkMeta) : MetaCond → Bool
  | .stateEq v => m.state == some v
  | .disasterEq v => m.disaster_type == some v
  | .categoryEq v => m.category == v

/-- Chroma `$or` semantics over the clause list. -/
def orFilter (conds : List MetaCond) (m : ChunkMeta) : Bool :=
  conds.any (condHolds m)

/-- The fixed cross-cutting category whitelist of the state+disaster branch. -/
def CROSS_CUTTING_CATEGORIES : List String :=
  ["model_output", "forecast", "fema", "warn_act", "cobra",
   "retraining", "recovery_timelines", "transferable_skills"]

/-- The `$or` filter built when both `state` and `disaster_type` are given. -/
def bothFilter (s d : String) : List MetaCond :=
  [.stateEq s, .disasterEq d] ++ CROSS_CUTTING_CATEGORIES.map .categoryEq

/-- The `$or` filter built when only `state` is given. -/
def stateOnlyFilter (s : String) : List MetaCond :=
  [.stateEq s] ++
    (["warn_act", "cobra", "retraining", "recovery_timelines",
      "transferable_skills"].map .categoryEq)

/-- The `$or` filter built when only `disaster_type` is given. -/
def disasterOnlyFilter (d : String) : List MetaCond :=
  [.disasterEq d] ++
    (["model_output", "forecast", "fema", "recovery_timelines",
      "transferable_skills"].map .categoryEq)

/-- The `where_filter` chosen by `retrieve` (Python truthiness: `None` and
`""` both select the weaker branches). -/
def retrieveWhere (state disaster_type : Option String) : Option (List MetaCond) :=
  if pyTruthy state && pyTruthy disaster_type then
    some (bothFilter (state.getD "") (disaster_type.getD ""))
  else if pyTruthy state then some (stateOnlyFilter (state.getD ""))
  else if pyTruthy disaster_type then some (disasterOnlyFilter (disaster_type.getD ""))
  else none

/-- `n_results = min(k, collection.count()) if collection.count() > 0 else k`. -/
def nResults (k count : Nat) : Nat := if 0 < count then min k count else k

/-- One element of the list `retrieve` returns. -/
structure RetrievedChunk where
  text : String
  metadata : ChunkMeta
  similarity : ℚ
deriving DecidableEq, Repr

/-- Post-processing of the index response: pair the parallel `documents`,
`metadatas` and `distances` arrays (equal-length by Chroma's contract) and
convert each cosine distance to `round(1 - distance, 4)`. -/
def retrieveChunks (docs : List String) (metas : List ChunkMeta) (dists : List ℚ) :
    List RetrievedChunk :=
  (docs.zip (metas.zip dists)).map (fun p => ⟨p.1, p.2.1, pyRound 4 (1 - p.2.2)⟩)

/-! ### Analytics store (`src/backend/rag/sql_engine.py`)

The two SQLite tables are modelled as lists of records; SQL `NULL`s are
`Option.none`.  `peak_month` has INTEGER affinity in the schema but only
ever feeds `AVG`, so it is idealized in `ℚ` like the REAL columns.
`peak_months` is stored as a JSON-encoded list and decoded on render
(`json.loads (json.dumps x) = x`), so the model keeps the list itself. -/

/-- One row of `employment_impact`. -/
structure EmploymentRow where
  fips_code : String
  state : String
  disaster_type : String
  region : String
  sector : String
  job_loss_pct : Option ℚ
  job_change_pct : Option ℚ
  recovery_months : Option ℚ
  peak_month : Option ℚ
deriving DecidableEq, Repr

/-- One row of `disaster_forecast`. -/
structure ForecastRow where
  state : String
  disaster_type : String
  total_historical : ℤ
  peak_months : List String
  avg_next_12 : Option ℚ
  cv_mae : Option ℚ
deriving DecidableEq, Repr

/-- The in-memory database loaded by `init_db`. -/
structure Db where
  employment_impact : List EmploymentRow
  disaster_forecast : List ForecastRow
deriving DecidableEq, Repr

/-- The forecast table's intended shape: one row per (state, disaster_type)
(spec §3, ForecastRecord).  Needed whenever a bare `df` column is selected
in a query grouped by that key. -/
def forecastKeyUnique (db : Db) : Prop :=
  db.disaster_forecast.Pairwise
    (fun f1 f2 => ¬(f1.state = f2.state ∧ f1.disaster_type = f2.disaster_type))

/-- `REGION_GROUPS` — insertion (= iteration) order of the Python dict. -/
def REGION_GROUPS : List (String × List String) :=
  [("southeast", ["FL", "GA", "NC", "SC", "VA", "AL", "MS", "TN"]),
   ("gulf_coast", ["FL", "LA", "TX", "MS", "AL"]),
   ("midwest", ["IL", "IN", "MI", "MN", "MO", "OH", "WI"]),
   ("west_coast", ["CA", "OR", "WA"]),
   ("northeast", ["NY", "PA", "MA", "CT", "RI"]),
   ("southwest", ["AZ", "TX", "NM", "CO", "UT"])]

/-! #### Query 1: `query_sector_ranking` -/

/-- The Python `where` list: a condition per truthy optional filter. -/
def sectorRankingWhere (state disaster_type : Option String) : List String :=
  (if pyTruthy state then ["state = ?"] else []) ++
    (if pyTruthy disaster_type then ["disaster_type = ?"] else [])

/-- Row predicate of the interpolated WHERE clause (params are
`state.upper()` and `disaster_type.lower()`). -/
def eiMatches (state disaster_type : Option String) (r : EmploymentRow) : Bool :=
  (!pyTruthy state || decide (r.state = pyUpper (state.getD ""))) &&
    (!pyTruthy disaster_type || decide (r.disaster_type = pyLower (disaster_type.getD "")))

/-- One row of the job-loss ranking subquery. -/
structure SectorLossRow where
  sector : String
  loss : ℚ
  recovery : Option ℚ
deriving DecidableEq, Repr

/-- One row of the demand-surge subquery. -/
structure SectorSurgeRow where
  sector : String
  surge : ℚ
  peak : Option ℚ
deriving DecidableEq, Repr

/-- `SELECT sector, AVG(job_loss_pct), AVG(recovery_months) ... GROUP BY
sector ORDER BY loss DESC`. -/
def sectorLossRows (state disaster_type : Option String) (db : Db) : List SectorLossRow :=
  let rows := db.employment_impact.filter
    (fun r => eiMatches state disaster_type r && r.job_loss_pct.isSome)
  sortDescBy (fun r => r.loss)
    ((uniqueKeys (rows.map (fun r => r.sector))).filterMap (fun sec =>
      let g := rows.filter (fun r => decide (r.sector = sec))
      (qAvg (g.filterMap (fun r => r.job_loss_pct))).map
        (fun avgLoss => ⟨sec, avgLoss, qAvg (g.filterMap (fun r => r.recovery_months))⟩)))

/-- `SELECT sector, AVG(job_change_pct), AVG(peak_month) ... GROUP BY sector
ORDER BY surge DESC`. -/
def sectorSurgeRows (state disaster_type : Option String) (db : Db) : List SectorSurgeRow :=
  let rows := db.employment_impact.filter
    (fun r => eiMatches state disaster_type r && r.job_change_pct.isSome)
  sortDescBy (fun r => r.surge)
    ((uniqueKeys (rows.map (fun r => r.sector))).filterMap (fun sec =>
      let g := rows.filter (fun r => decide (r.sector = sec))
      (qAvg (g.filterMap (fun r => r.job_change_pct))).map
        (fun avgSurge => ⟨sec, avgSurge, qAvg (g.filterMap (fun r => r.peak_month))⟩)))

/-- One numbered line of the loss section
(`f"  {i}. {sector:<28} — {loss:.0f}% job loss, recovers in {rec}"`;
`rec` falls back to `"unknown"` when the recovery aggregate is `NULL` or
`0.0`, both falsy in Python). -/
def sectorLossLine (i : Nat) (r : SectorLossRow) : String :=
  "  " ++ toString i ++ ". " ++ padRight r.sector 28 ++ " — " ++ fmtFixed0 r.loss ++
    "% job loss, recovers in " ++
    (match r.recovery with
      | some v => if v = 0 then "unknown" else fmtFixed0 v ++ " months"
      | none => "unknown") ++ "\n"

/-- One numbered line of the surge section. -/
def sectorSurgeLine (i : Nat) (r : SectorSurgeRow) : String :=
  "  " ++ toString i ++ ". " ++ padRight r.sector 28 ++ " — +" ++ fmtFixed0 r.surge ++
    "% demand increase, peaks at " ++
    (match r.peak with
      | some v => if v = 0 then "unknown timing" else "month " ++ fmtFixed0 v
      | none => "unknown timing") ++ "\n"

/-- The full `context` string built by `query_sector_ranking` before
`.strip()`. -/
def renderSectorRanking (state disaster_type : Option String)
    (lossRows : List SectorLossRow) (surgeRows : List SectorSurgeRow) : String :=
  "Sector Employment Rankings" ++
    (if pyTruthy state && pyTruthy disaster_type then
      " — " ++ state.getD "" ++ " " ++ pyTitle (pyReplaceChar (disaster_type.getD "") '_' ' ')
    else "") ++ ":\n" ++
    (if lossRows.isEmpty then ""
     else "\nSectors losing jobs (from most to least severe):\n" ++
       String.join (lossRows.enum.map (fun p => sectorLossLine (p.1 + 1) p.2))) ++
    (if surgeRows.isEmpty then ""
     else "\nSectors gaining workers (demand surge from rebuilding/response):\n" ++
       String.join (surgeRows.enum.map (fun p => sectorSurgeLine (p.1 + 1) p.2)))

/-- Model of `query_sector_ranking`.  When both optional filters are falsy
the `where` list is empty, `where_clause` is `""`, and the interpolated SQL
reads `FROM employment_impact  AND job_loss_pct IS NOT NULL`, which SQLite
rejects — `conn.execute` raises `sqlite3.OperationalError`. -/
def query_sector_ranking (state disaster_type : Option String) (db : Db) :
    Except String String :=
  if (sectorRankingWhere state disaster_type).isEmpty then
    .error "near \"AND\": syntax error"
  else
    let lossRows := sectorLossRows state disaster_type db
    let surgeRows := sectorSurgeRows state disaster_type db
    if lossRows.isEmpty && surgeRows.isEmpty then .ok ""
    else .ok (String.trim (renderSectorRanking state disaster_type lossRows surgeRows))

/-! #### Query 2: `query_top_risk_combos` -/

/-- The GROUP BY key `(ei.state, ei.sector, ei.disaster_type)`. -/
def eiKey (r : EmploymentRow) : String × String × String :=
  (r.state, r.sector, r.disaster_type)

/-- The joined and WHERE-filtered pairs:
`employment_impact JOIN disaster_forecast ON state AND disaster_type WHERE
ei.job_loss_pct IS NOT NULL AND df.avg_next_12 IS NOT NULL`. -/
def topRiskPairs (db : Db) : List (EmploymentRow × ForecastRow) :=
  (db.employment_impact.flatMap (fun ei =>
    (db.disaster_forecast.filter (fun df =>
      decide (df.state = ei.state ∧ df.disaster_type = ei.disaster_type))).map
      (fun df => (ei, df)))).filter
    (fun p => p.1.job_loss_pct.isSome && p.2.avg_next_12.isSome)

/-- One result row of `query_top_risk_combos`. -/
structure RiskRow where
  state : String
  sector : String
  disaster_type : String
  avg_loss_pct : ℚ
  avg_recovery : Option ℚ
  freq_per_month : ℚ
  risk_score : ℚ
deriving DecidableEq, Repr

/-- Aggregates of one non-empty group; the bare column `df.avg_next_12` is
taken from the group's first pair (well-defined whenever the forecast key is
unique). -/
def riskRowOfGroup :
    String × String × String → List (EmploymentRow × ForecastRow) → Option RiskRow
  | _, [] => none
  | (st, sec, dt), p0 :: rest =>
    let g := p0 :: rest
    let losses := g.filterMap (fun p => p.1.job_loss_pct)
    let avgLoss := qSum losses / (losses.length : ℚ)
    let freq := p0.2.avg_next_12.getD 0
    some ⟨st, sec, dt, sqliteRound 1 avgLoss,
      (qAvg (g.filterMap (fun p => p.1.recovery_months))).map (sqliteRound 0),
      sqliteRound 2 freq, sqliteRound 1 (avgLoss * freq)⟩

/-- The rows of `query_top_risk_combos`: group, aggregate,
`ORDER BY risk_score DESC LIMIT ?`. -/
def topRiskRows (db : Db) (limit : Nat) : List RiskRow :=
  (sortDescBy (fun r => r.risk_score)
    ((uniqueKeys ((topRiskPairs db).map (fun p => eiKey p.1))).filterMap
      (fun k => riskRowOfGroup k ((topRiskPairs db).filter (fun p => decide (eiKey p.1 = k)))))).take
    limit

/-- The non-null job-loss values of one `(state, sector, disaster_type)`
group, read directly off the employment table: the values whose mean the
top-risk query reports (null rows never enter the list). -/
def lossesOfKey (db : Db) (st sec dt : String) : List ℚ :=
  (db.employment_impact.filter (fun e =>
    decide (e.state = st ∧ e.sector = sec ∧ e.disaster_type = dt))).filterMap
    (fun e => e.job_loss_pct)

/-- The employment rows of a key that survive the top-risk WHERE clause. -/
def eiQual (db : Db) (st sec dt : String) : List EmploymentRow :=
  db.employment_impact.filter (fun e =>
    decide (e.state = st ∧ e.sector = sec ∧ e.disaster_type = dt) && e.job_loss_pct.isSome)

/-- The first forecast row of a `(state, disaster_type)` key with a non-null
`avg_next_12` — the unique one when the forecast key is unique. -/
def forecastFor (db : Db) (st dt : String) : Option ForecastRow :=
  (db.disaster_forecast.filter (fun df =>
    decide (df.state = st ∧ df.disaster_type = dt) && df.avg_next_12.isSome)).head?

/-- The two formatted lines per risk row. -/
def riskRowLines (i : Nat) (r : RiskRow) : List String :=
  ["  " ++ padLeft (toString i) 2 ++ ". " ++ r.state ++ " · " ++ r.sector ++ " · " ++
      pyTitle (pyReplaceChar r.disaster_type '_' ' '),
   "       Job loss: " ++ fmtFloat r.avg_loss_pct ++ "% | Recovery: " ++
      fmtOptFloat r.avg_recovery ++ " months | Frequency: " ++ fmtFloat r.freq_per_month ++
      " events/month | Risk score: " ++ fmtFloat r.risk_score]

/-- Model of `query_top_risk_combos` (default limit 10 at the call sites). -/
def query_top_risk_combos (limit : Nat) (db : Db) : Except String String :=
  let rows := topRiskRows db limit
  if rows.isEmpty then .ok ""
  else .ok (String.intercalate "\n"
    (["Top " ++ toString limit ++ " Highest-Risk State × Sector × Disaster Combinations",
      "(Risk Score = Job Loss % × Avg Monthly Disaster Frequency)", ""] ++
     (rows.enum.flatMap (fun p => riskRowLines (p.1 + 1) p.2))))

/-! #### Query 3: `query_portfolio` -/

/-- One result row of `query_portfolio`. -/
structure PortfolioRow where
  sector : String
  avg_loss : ℚ
  worst_loss : ℚ
  avg_recovery : Option ℚ
  states_covered : Nat
deriving DecidableEq, Repr

/-- The grouped rows of `query_portfolio`. -/
def portfolioRows (states : List String) (disaster_type : String) (db : Db) :
    List PortfolioRow :=
  let rows := db.employment_impact.filter (fun r =>
    states.contains r.state && decide (r.disaster_type = pyLower disaster_type) &&
      r.job_loss_pct.isSome)
  sortDescBy (fun r => r.avg_loss)
    ((uniqueKeys (rows.map (fun r => r.sector))).filterMap (fun sec =>
      let g := rows.filter (fun r => decide (r.sector = sec))
      match g.filterMap (fun r => r.job_loss_pct) with
      | [] => none
      | l0 :: ls =>
        some ⟨sec, sqliteRound 1 (qSum (l0 :: ls) / ((l0 :: ls).length : ℚ)),
          sqliteRound 1 (qMaxD l0 ls),
          (qAvg (g.filterMap (fun r => r.recovery_months))).map (sqliteRound 0),
          (uniqueKeys (g.map (fun r => r.state))).length⟩))

/-- One formatted portfolio line. -/
def portfolioLine (nStates : Nat) (r : PortfolioRow) : String :=
  "  " ++ padRight r.sector 30 ++ " avg " ++ fmtFloat r.avg_loss ++ "% loss (worst: " ++
    fmtFloat r.worst_loss ++ "%), " ++ fmtOptFloat r.avg_recovery ++ "mo recovery [" ++
    toString r.states_covered ++ "/" ++ toString nStates ++ " states]"

/-- Model of `query_portfolio`.  An empty state list interpolates `IN ()`
into the SQL, which SQLite rejects (never reached from the router, which
guards on a non-empty list). -/
def query_portfolio (states : List String) (disaster_type : String) (db : Db) :
    Except String String :=
  if states.isEmpty then .error "near \")\": syntax error"
  else
    let rows := portfolioRows states disaster_type db
    if rows.isEmpty then .ok ""
    else .ok (String.intercalate "\n"
      (["Portfolio Workforce Risk — " ++ pyTitle (pyReplaceChar disaster_type '_' ' ') ++
          " exposure across: " ++ String.intercalate ", " states, ""] ++
       rows.map (portfolioLine states.length)))

/-! #### Query 4: `query_variance` -/

/-- One result row of `query_variance`. -/
structure VarianceRow where
  sector : String
  avg_recovery : ℚ
  range_months : ℚ
  avg_loss : Option ℚ
  n_data_points : Nat
deriving DecidableEq, Repr

/-- `WHERE recovery_months IS NOT NULL GROUP BY sector HAVING
n_data_points >= 2 ORDER BY range_months DESC`. -/
def varianceRows (db : Db) : List VarianceRow :=
  let rows := db.employment_impact.filter (fun r => r.recovery_months.isSome)
  sortDescBy (fun r => r.range_months)
    ((uniqueKeys (rows.map (fun r => r.sector))).filterMap (fun sec =>
      let g := rows.filter (fun r => decide (r.sector = sec))
      match g.filterMap (fun r => r.recovery_months) with
      | [] => none
      | r0 :: rest =>
        if 2 ≤ g.length then
          some ⟨sec, sqliteRound 1 (qSum (r0 :: rest) / ((r0 :: rest).length : ℚ)),
            sqliteRound 1 (qMaxD r0 rest - qMinD r0 rest),
            (qAvg (g.filterMap (fun r => r.job_loss_pct))).map (sqliteRound 1),
            g.length⟩
        else none))

/-- The reliability classification applied to `range_months` in the render
loop of `query_variance`. -/
def reliabilityLabel (range_months : ℚ) : String :=
  if 9 < range_months then "HIGH variance"
  else if 4 < range_months then "MEDIUM variance"
  else "LOW variance"

/-- One formatted variance line. -/
def varianceLine (i : Nat) (r : VarianceRow) : String :=
  "  " ++ padLeft (toString i) 2 ++ ". " ++ padRight r.sector 30 ++ " avg " ++
    fmtFloat r.avg_recovery ++ "mo recovery, range: " ++ fmtFloat r.range_months ++
    "mo spread — " ++ reliabilityLabel r.range_months ++ " (" ++
    toString r.n_data_points ++ " data points)"

/-- Model of `query_variance`. -/
def query_variance (db : Db) : Except String String :=
  let rows := varianceRows db
  if rows.isEmpty then .ok ""
  else .ok (String.intercalate "\n"
    (["Sector Recovery Variance (high range = less reliable predictions):", ""] ++
     rows.enum.map (fun p => varianceLine (p.1 + 1) p.2)))

/-! #### Query 5: `query_demand_surge` -/

/-- One result row of `query_demand_surge`. -/
structure SurgeRow where
  sector : String
  disaster_type : String
  avg_surge : ℚ
  avg_peak : Option ℚ
  states : Nat
deriving DecidableEq, Repr

/-- `WHERE job_change_pct IS NOT NULL [AND disaster_type = ?] GROUP BY
sector, disaster_type ORDER BY avg_surge DESC`. -/
def surgeRows (disaster_type : Option String) (db : Db) : List SurgeRow :=
  let rows := db.employment_impact.filter (fun r =>
    r.job_change_pct.isSome &&
      (!pyTruthy disaster_type || decide (r.disaster_type = pyLower (disaster_type.getD ""))))
  sortDescBy (fun r => r.avg_surge)
    ((uniqueKeys (rows.map (fun r => (r.sector, r.disaster_type)))).filterMap (fun k =>
      let g := rows.filter (fun r => decide ((r.sector, r.disaster_type) = k))
      match g.filterMap (fun r => r.job_change_pct) with
      | [] => none
      | c0 :: cs =>
        some ⟨k.1, k.2, sqliteRound 1 (qSum (c0 :: cs) / ((c0 :: cs).length : ℚ)),
          (qAvg (g.filterMap (fun r => r.peak_month))).map (sqliteRound 0),
          (uniqueKeys (g.map (fun r => r.state))).length⟩))

/-- The `label` used both in the heading and in each row
(`f" after {disaster_type.title()}"` when a disaster filter is truthy). -/
def surgeLabel (disaster_type : Option String) : String :=
  if pyTruthy disaster_type then
    " after " ++ pyTitle (pyReplaceChar (disaster_type.getD "") '_' ' ')
  else ""

/-- One formatted demand-surge line; `f"{avg_peak:.0f}"` applied to a NULL
aggregate is a Python `TypeError`, surfaced by the caller model. -/
def surgeLine (label : String) (r : SurgeRow) : String :=
  "  " ++ padRight r.sector 30 ++ " +" ++ fmtFloat r.avg_surge ++ "% demand surge" ++
    (if label.isEmpty then " (" ++ pyTitle (pyReplaceChar r.disaster_type '_' ' ') ++ ")"
     else label) ++
    ", peaks at month " ++ fmtFixed0 (r.avg_peak.getD 0) ++ " (" ++ toString r.states ++
    " states)"

/-- Model of `query_demand_surge`.  A row whose `AVG(peak_month)` is NULL
makes the f-string `{r['avg_peak']:.0f}` raise
`TypeError: unsupported format string passed to NoneType.__format__`. -/
def query_demand_surge (disaster_type : Option String) (db : Db) : Except String String :=
  let rows := surgeRows disaster_type db
  if rows.isEmpty then .ok ""
  else if rows.any (fun r => r.avg_peak.isNone) then
    .error "unsupported format string passed to NoneType.__format__"
  else .ok (String.intercalate "\n"
    (["Sectors gaining workers" ++ surgeLabel disaster_type ++ " (labor demand increases):",
      ""] ++ rows.map (surgeLine (surgeLabel disaster_type))))

/-! #### Query 6: `query_preposition` -/

/-- One result row of `query_preposition`. -/
structure PrepositionRow where
  state : String
  disaster_type : String
  freq : ℚ
  peak_months : List String
  avg_loss : ℚ
  priority_score : ℚ
deriving DecidableEq, Repr

/-- `disaster_forecast JOIN employment_impact ON state AND disaster_type
WHERE df.avg_next_12 > 0 AND ei.job_loss_pct IS NOT NULL` (a NULL
`avg_next_12` fails `> 0`). -/
def prepositionPairs (db : Db) : List (ForecastRow × EmploymentRow) :=
  (db.disaster_forecast.flatMap (fun df =>
    (db.employment_impact.filter (fun ei =>
      decide (ei.state = df.state ∧ ei.disaster_type = df.disaster_type))).map
      (fun ei => (df, ei)))).filter
    (fun p => (match p.1.avg_next_12 with | some a => decide (0 < a) | none => false) &&
      p.2.job_loss_pct.isSome)

/-- Aggregates of one non-empty pre-positioning group; bare `df` columns are
taken from the group's first pair. -/
def prepositionRowOfGroup :
    String × String → List (ForecastRow × EmploymentRow) → Option PrepositionRow
  | _, [] => none
  | (st, dt), p0 :: rest =>
    let g := p0 :: rest
    let losses := g.filterMap (fun p => p.2.job_loss_pct)
    let avgLoss := qSum losses / (losses.length : ℚ)
    let freq := p0.1.avg_next_12.getD 0
    some ⟨st, dt, sqliteRound 2 freq, p0.1.peak_months, sqliteRound 1 avgLoss,
      sqliteRound 1 (freq * avgLoss)⟩

/-- The rows of `query_preposition`: `GROUP BY df.state, df.disaster_type
ORDER BY priority_score DESC LIMIT ?`. -/
def prepositionRows (db : Db) (limit : Nat) : List PrepositionRow :=
  (sortDescBy (fun r => r.priority_score)
    ((uniqueKeys ((prepositionPairs db).map (fun p => (p.1.state, p.1.disaster_type)))).filterMap
      (fun k => prepositionRowOfGroup k
        ((prepositionPairs db).filter (fun p => decide ((p.1.state, p.1.disaster_type) = k)))))).take
    limit

/-- The two formatted lines per pre-positioning row. -/
def prepositionRowLines (i : Nat) (r : PrepositionRow) : List String :=
  ["  " ++ padLeft (toString i) 2 ++ ". " ++ r.state ++ " — " ++
      pyTitle (pyReplaceChar r.disaster_type '_' ' ') ++
      (if r.peak_months.isEmpty then ""
       else ", peak: " ++ String.intercalate ", " (r.peak_months.take 2)),
   "       Frequency: " ++ fmtFloat r.freq ++ " events/month | Avg job loss: " ++
      fmtFloat r.avg_loss ++ "% | Priority: " ++ fmtFloat r.priority_score]

/-- Model of `query_preposition` (default limit 10 at the call sites). -/
def query_preposition (limit : Nat) (db : Db) : Except String String :=
  let rows := prepositionRows db limit
  if rows.isEmpty then .ok ""
  else .ok (String.intercalate "\n"
    (["Top " ++ toString limit ++ " States/Disasters to Pre-Position Workforce Resources",
      "(Ranked by: Forecast Frequency × Average Job Loss = Priority Score)", ""] ++
     rows.enum.flatMap (fun p => prepositionRowLines (p.1 + 1) p.2)))

/-! ### Query router (`src/backend/rag/query_router.py`)

Keyword collections are Python sets consumed only through
`any(kw in t for kw in ...)`, which is order-independent, so lists are a
faithful model. -/

/-- `_TOP_RANK`. -/
def TOP_RANK_KEYWORDS : List String :=
  ["top 10", "top 5", "top ten", "top five", "top cities", "top states",
   "top sectors", "rank", "ranked", "ranking", "which sectors recover fastest",
   "which sectors recover slowest", "fastest recovery", "slowest recovery",
   "most at risk", "highest risk", "least risk", "safest sector",
   "compare sectors", "sector comparison"]

/-- `_SECTOR_RANK`. -/
def SECTOR_RANK_KEYWORDS : List String :=
  ["which sector", "which industry", "recover fastest", "recover slowest",
   "recover quickest", "quickest recovery", "worst hit", "hardest hit",
   "most affected", "least affected", "bounce back"]

/-- `_PORTFOLIO`. -/
def PORTFOLIO_KEYWORDS : List String :=
  ["portfolio", "southeast", "gulf coast", "west coast", "midwest", "northeast",
   "across our", "across states", "multiple states", "all states",
   "real estate holdings", "our properties", "our exposure"]

/-- `_VARIANCE`. -/
def VARIANCE_KEYWORDS : List String :=
  ["variance", "reliable", "reliability", "confidence", "uncertain",
   "how accurate", "least reliable", "most reliable", "how sure",
   "how certain", "prediction accuracy", "model accuracy"]

/-- `_DEMAND_SURGE`. -/
def DEMAND_SURGE_KEYWORDS : List String :=
  ["gain workers", "gain jobs", "gaining jobs", "hiring", "increase jobs",
   "which sectors grow", "which sectors hire", "opportunity after",
   "benefit from disaster", "boom after", "construction boom",
   "who benefits", "which jobs increase"]

/-- `_PREPOSITION`. -/
def PREPOSITION_KEYWORDS : List String :=
  ["pre-position", "preposition", "where should we", "deploy resources",
   "prioritize retraining", "where to focus", "resource allocation",
   "intervention priority", "forecast risk", "next 18 months", "next year risk",
   "upcoming risk", "prepare for"]

/-- The geographic-scope keywords of the top-risk rule
(`["city", "state", "combined", "overall", "weighted", "10", "5", "ten",
"five"]`). -/
def SCOPE_KEYWORDS : List String :=
  ["city", "state", "combined", "overall", "weighted", "10", "5", "ten", "five"]

/-- `_match(text, keywords)`: any keyword a substring of the lowercased
text. -/
def matchKw (text : String) (kws : List String) : Bool :=
  kws.any (fun kw => pyIn kw (pyLower text))

/-- The 51-entry valid state-code set of `_extract_states`. -/
def ALL_STATES : List String :=
  ["AL", "AK", "AZ", "AR", "CA", "CO", "CT", "DE", "DC", "FL", "GA", "HI", "ID",
   "IL", "IN", "IA", "KS", "KY", "LA", "ME", "MD", "MA", "MI", "MN", "MS", "MO",
   "MT", "NE", "NV", "NH", "NJ", "NM", "NY", "NC", "ND", "OH", "OK", "OR", "PA",
   "RI", "SC", "SD", "TN", "TX", "UT", "VT", "VA", "WA", "WV", "WI", "WY"]

/-- A regex word character (`\w` over the ASCII questions). -/
def isWordChar (c : Char) : Bool := c.isAlpha || c.isDigit || c == '_'

/-- Splits characters into maximal word-character runs. -/
def wordRunsGo : List Char → List Char → List (List Char)
  | cur, [] => if cur.isEmpty then [] else [cur.reverse]
  | cur, c :: cs =>
    if isWordChar c then wordRunsGo (c :: cur) cs
    else if cur.isEmpty then wordRunsGo [] cs
    else cur.reverse :: wordRunsGo [] cs

/-- Maximal word-character runs of a character list. -/
def wordRuns (l : List Char) : List (List Char) := wordRunsGo [] l

/-- `_extract_states`: `re.findall(r'\b([A-Z]{2})\b', text.upper())` matches
exactly the maximal word runs of length 2 consisting of capitals (a run of
any other length, or containing a digit or underscore, fails the pattern or
its word boundaries); matches are then filtered against the valid-code
set, preserving order and duplicates. -/
def extract_states (text : String) : List String :=
  (((wordRuns (pyUpper text).data).filter
      (fun r => r.length == 2 && r.all Char.isUpper)).map String.mk).filter
    (fun s => ALL_STATES.contains s)

/-- The ordered keyword → disaster-type table of `_extract_disaster`. -/
def DISASTER_KEYWORDS : List (String × String) :=
  [("hurricane", "hurricane"), ("flood", "flood"), ("wildfire", "fire"),
   ("fire", "fire"), ("tornado", "tornado"), ("earthquake", "earthquake"),
   ("storm", "severe_storm"), ("severe storm", "severe_storm")]

/-- `_extract_disaster`: first table entry whose keyword occurs in the
lowercased text. -/
def extract_disaster (text : String) : Option String :=
  (DISASTER_KEYWORDS.find? (fun p => pyIn p.1 (pyLower text))).map (fun p => p.2)

/-- `_extract_region_states`: first region whose name (underscores replaced
by spaces, or verbatim) occurs in the lowercased text. -/
def extract_region_states (text : String) : List String :=
  match REGION_GROUPS.find? (fun p =>
    pyIn (pyReplaceChar p.1 '_' ' ') (pyLower text) || pyIn p.1 (pyLower text)) with
  | some p => p.2
  | none => []

/-- `_extract_region_states(question) or _extract_states(question)`. -/
def portfolioStates (question : String) : List String :=
  if (extract_region_states question).isEmpty then extract_states question
  else extract_region_states question

/-- The portfolio rule's disaster type:
`disaster_type or _extract_disaster(question) or "hurricane"`. -/
def portfolioDtype (question : String) (disaster_type : Option String) : String :=
  match pyOrOpt disaster_type (extract_disaster question) with
  | some d => if d.isEmpty then "hurricane" else d
  | none => "hurricane"

/-- Rules 4–6 of the router (variance, demand surge, sector ranking, and the
final semantic-only fall-through), split out so that the fall-through
behaviour of the portfolio rule can be stated. -/
def routeTail (question : String) (state disaster_type : Option String) (db : Db) :
    Except String String :=
  if matchKw question VARIANCE_KEYWORDS then query_variance db
  else if matchKw question DEMAND_SURGE_KEYWORDS then
    query_demand_surge (pyOrOpt disaster_type (extract_disaster question)) db
  else if matchKw question SECTOR_RANK_KEYWORDS || matchKw question TOP_RANK_KEYWORDS then
    match query_sector_ranking (pyOrOpt state (extract_states question).head?)
        (pyOrOpt disaster_type (extract_disaster question)) db with
    | .error e => .error e
    | .ok s => if s.isEmpty then .ok "" else .ok s
  else .ok ""

/-- Model of `route_and_query`: the six first-match-wins rules.  The
portfolio rule (3) falls through to the later rules both when its keywords
do not match and when no states resolve (`if states:` guards the `return`).
An exception escaping `query_sector_ranking` propagates to the caller. -/
def route_and_query (question : String) (state disaster_type : Option String) (db : Db) :
    Except String String :=
  if matchKw question TOP_RANK_KEYWORDS &&
      SCOPE_KEYWORDS.any (fun kw => pyIn kw (pyLower question)) then
    query_top_risk_combos 10 db
  else if matchKw question PREPOSITION_KEYWORDS then
    query_preposition 10 db
  else if matchKw question PORTFOLIO_KEYWORDS && !(portfolioStates question).isEmpty then
    query_portfolio (portfolioStates question) (portfolioDtype question disaster_type) db
  else if matchKw question VARIANCE_KEYWORDS then query_variance db
  else if matchKw question DEMAND_SURGE_KEYWORDS then
    query_demand_surge (pyOrOpt disaster_type (extract_disaster question)) db
  else if matchKw question SECTOR_RANK_KEYWORDS || matchKw question TOP_RANK_KEYWORDS then
    match query_sector_ranking (pyOrOpt state (extract_states question).head?)
        (pyOrOpt disaster_type (extract_disaster question)) db with
    | .error e => .error e
    | .ok s => if s.isEmpty then .ok "" else .ok s
  else .ok ""

/-! ### Concrete example data used by witnesses and counterexamples -/

/-- A small loaded database: two Florida hurricane Retail rows and the
matching forecast row. -/
def dbRoute : Db :=
  ⟨[⟨"12086", "FL", "hurricane", "Miami-Dade", "Retail", some 10, none, some 4, none⟩,
    ⟨"12011", "FL", "hurricane", "Broward", "Retail", some 12, none, some 6, none⟩],
   [⟨"FL", "hurricane", 5, ["September"], some 2, none⟩]⟩

/-- A database on which the returned `risk_score` differs from the exact
product `mean(job_loss_pct) × avg_next_12 = 5.55`. -/
def dbRound : Db :=
  ⟨[⟨"12086", "FL", "hurricane", "Miami-Dade", "Services", some (111/20), none, none, none⟩],
   [⟨"FL", "hurricane", 3, [], some 1, none⟩]⟩

/-- A database whose single variance group has exact recovery range
`10.04 − 1 = 9.04`, rounded by the query to `9.0`. -/
def dbRange : Db :=
  ⟨[⟨"12086", "FL", "hurricane", "Miami-Dade", "Logistics", some 5, none, some 1, none⟩,
    ⟨"12011", "FL", "hurricane", "Broward", "Logistics", some 7, none, some (251/25), none⟩],
   []⟩

/-- The single row `query_variance` computes on `dbRange`:
`avg = ROUND(5.52, 1) = 5.5`, `range = ROUND(9.04, 1) = 9.0`,
`avg_loss = ROUND(6, 1)`, two data points. -/
def vrRange : VarianceRow := ⟨"Logistics", 11/2, 9, some 6, 2⟩

/-- An untagged general chunk (matches no disjunct of any filter). -/
def metaGeneral : ChunkMeta := ⟨"general", none, none, "notes.md"⟩

/-- A chunk tagged with state CA. -/
def metaCA : ChunkMeta := ⟨"state_profile", some "CA", none, "ca_unemployment.md"⟩

/-! ### General lemmas -/

theorem mem_uniqueKeys {κ : Type} [DecidableEq κ] {k : κ} :
    ∀ {l : List κ}, k ∈ uniqueKeys l ↔ k ∈ l := by
  intro l
  induction l with
  | nil => simp [uniqueKeys]
  | cons a as ih =>
    simp only [uniqueKeys, List.mem_cons, List.mem_filter]
    constructor
    · rintro (rfl | ⟨h, _⟩)
      · exact .inl rfl
      · exact .inr (ih.mp h)
    · rintro (rfl | h)
      · exact .inl rfl
      · by_cases hk : k = a
        · exact .inl hk
        · exact .inr ⟨ih.mpr h, by simpa using hk⟩

theorem mem_insertDescBy {α : Type} {f : α → ℚ} {a x : α} :
    ∀ {l : List α}, x ∈ insertDescBy f a l ↔ x = a ∨ x ∈ l := by
  intro l
  induction l with
  | nil => simp [insertDescBy]
  | cons b bs ih =>
    simp only [insertDescBy]
    by_cases h : f b < f a
    · simp [h, List.mem_cons]
    · simp only [h, if_false, List.mem_cons, ih]
      tauto

theorem mem_sortDescBy {α : Type} {f : α → ℚ} {x : α} :
    ∀ {l : List α}, x ∈ sortDescBy f l ↔ x ∈ l := by
  intro l
  induction l with
  | nil => simp [sortDescBy]
  | cons a as ih => simp [sortDescBy, mem_insertDescBy, ih]

theorem pairwise_insertDescBy {α : Type} {f : α → ℚ} {a : α} {l : List α}
    (h : l.Pairwise (fun x y => f y ≤ f x)) :
    (insertDescBy f a l).Pairwise (fun x y => f y ≤ f x) := by
  induction l with
  | nil => simp [insertDescBy]
  | cons b bs ih =>
    rw [List.pairwise_cons] at h
    simp only [insertDescBy]
    by_cases hba : f b < f a
    · rw [if_pos hba, List.pairwise_cons]
      constructor
      · intro y hy
        rcases List.mem_cons.mp hy with rfl | hy
        · exact le_of_lt hba
        · exact le_trans (h.1 y hy) (le_of_lt hba)
      · rw [List.pairwise_cons]
        exact h
    · rw [if_neg hba, List.pairwise_cons]
      constructor
      · intro y hy
        rcases mem_insertDescBy.mp hy with rfl | hy
        · exact le_of_not_lt hba
        · exact h.1 y hy
      · exact ih h.2

theorem pairwise_sortDescBy {α : Type} (f : α → ℚ) :
    ∀ (l : List α), (sortDescBy f l).Pairwise (fun x y => f y ≤ f x) := by
  intro l
  induction l with
  | nil => simp [sortDescBy]
  | cons a as ih => exact pairwise_insertDescBy ih

theorem roundHalfEven_bounds (x : ℚ) :
    (⌊x⌋ : ℤ) ≤ roundHalfEven x ∧ roundHalfEven x ≤ ⌊x⌋ + 1 := by
  unfold roundHalfEven
  split_ifs <;> omega

theorem roundHalfEven_mono {x y : ℚ} (h : x ≤ y) :
    roundHalfEven x ≤ roundHalfEven y := by
  have hf : (⌊x⌋ : ℤ) ≤ ⌊y⌋ := Int.floor_le_floor h
  rcases eq_or_lt_of_le hf with heq | hlt
  · have hcast : ((⌊x⌋ : ℤ) : ℚ) = ((⌊y⌋ : ℤ) : ℚ) := by exact_mod_cast heq
    have hxy : x - ((⌊x⌋ : ℤ) : ℚ) ≤ y - ((⌊y⌋ : ℤ) : ℚ) := by
      rw [← hcast]; linarith
    unfold roundHalfEven
    split_ifs with h1 h2 h3 h4 h5 h6 h7 h8 h9 h10 h11 h12 h13 <;>
      first
        | omega
        | (exfalso; linarith)
  · have hx := (roundHalfEven_bounds x).2
    have hy := (roundHalfEven_bounds y).1
    omega

theorem pyRound_mono (d : Nat) {x y : ℚ} (h : x ≤ y) :
    pyRound d x ≤ pyRound d y := by
  unfold pyRound
  have hp : (0 : ℚ) < (10 : ℚ) ^ d := by positivity
  have h1 : x * (10 : ℚ) ^ d ≤ y * (10 : ℚ) ^ d :=
    mul_le_mul_of_nonneg_right h (le_of_lt hp)
  have h2 : roundHalfEven (x * (10 : ℚ) ^ d) ≤ roundHalfEven (y * (10 : ℚ) ^ d) :=
    roundHalfEven_mono h1
  have h3 : ((roundHalfEven (x * (10 : ℚ) ^ d) : ℤ) : ℚ) ≤
      ((roundHalfEven (y * (10 : ℚ) ^ d) : ℤ) : ℚ) := by exact_mod_cast h2
  exact div_le_div_of_nonneg_right h3 hp.le

theorem pyRound_one (d : Nat) : pyRound d 1 = 1 := by
  unfold pyRound roundHalfEven
  rw [one_mul]
  have h1 : ((10 : ℚ) ^ d) = (((10 ^ d : ℤ)) : ℚ) := by push_cast; ring
  rw [h1, Int.floor_intCast]
  rw [if_pos (by norm_num : (((10 ^ d : ℤ)) : ℚ) - (((10 ^ d : ℤ)) : ℚ) < 1/2)]
  have hp : ((((10 ^ d : ℤ)) : ℚ)) ≠ 0 := by positivity
  exact div_self hp

theorem pyRound_neg_one (d : Nat) : pyRound d (-1) = -1 := by
  unfold pyRound roundHalfEven
  have h1 : (-1 : ℚ) * ((10 : ℚ) ^ d) = ((((-(10 ^ d)) : ℤ)) : ℚ) := by push_cast; ring
  rw [h1, Int.floor_intCast]
  rw [if_pos (by norm_num : ((((-(10 ^ d)) : ℤ)) : ℚ) - ((((-(10 ^ d)) : ℤ)) : ℚ) < 1/2)]
  have hp : (10 : ℚ) ^ d ≠ 0 := by positivity
  push_cast
  rw [neg_div, div_self hp]

theorem roundHalfEven_intCast (n : ℤ) : roundHalfEven (n : ℚ) = n := by
  unfold roundHalfEven
  rw [Int.floor_intCast]
  rw [if_pos]
  norm_num

theorem nResults_le (k count : Nat) : nResults k count ≤ k := by
  unfold nResults
  split_ifs
  · exact min_le_left k count
  · exact le_refl k

/-! ### Claim theorems -/

/-- C5: in every execution of `event_generator` — whether the generation
backend completes or fails mid-stream — the last emitted event is the
completion sentinel `data: [DONE]`, and on failure the stream is exactly the
events for the yielded tokens followed by a single content-shaped error
token and then the sentinel; the stream is never left open. -/
theorem c5_stream_terminates (tokens : List String) (e : String) :
    (event_generator tokens .completed).getLast? = some sseDone ∧
    (event_generator tokens (.failed e)).getLast? = some sseDone ∧
    event_generator tokens (.failed e) = tokens.map sseEvent ++ [sseError e, sseDone] ∧
    event_generator tokens .completed = tokens.map sseEvent ++ [sseDone] := by
  refine ⟨?_, ?_, by simp [event_generator], by simp [event_generator]⟩
  · simp [event_generator, List.getLast?_append]
  · simp [event_generator, List.getLast?_append]

/-- C2 (code bug): when both optional filters are absent,
`query_sector_ranking` interpolates an empty `where_clause` and the SQL text
reads `FROM employment_impact  AND job_loss_pct IS NOT NULL`, which SQLite
rejects, so instead of returning a formatted string or `""` the call raises
`sqlite3.OperationalError`; the router's sector-ranking fallback reaches
this call for a question such as "which sector recovers fastest" with no
caller-supplied filters. -/
theorem c2_sector_ranking_raises (db : Db) :
    query_sector_ranking none none db = .error "near \"AND\": syntax error" ∧
    route_and_query "which sector recovers fastest" none none db =
      .error "near \"AND\": syntax error" := by
  exact ⟨rfl, rfl⟩

/-- C9 (amended): a caller-supplied audience is used exactly when it is one
of the six recognized values; otherwise `detect_audience` runs over
`job_title` plus `question`, testing insurer, then investor, then
policymaker, then employer keywords, defaulting to `worker` when none match
and at least one input is non-empty — but when both inputs are empty or
absent it returns `unknown`, not `worker`. -/
theorem c9_audience_amended (a : String) (jt q : Option String) :
    (AUDIENCE_TYPES.contains a = true → resolve_audience (some a) jt q = a) ∧
    (AUDIENCE_TYPES.contains a = false →
      resolve_audience (some a) jt q = detect_audience jt q) ∧
    resolve_audience none jt q = detect_audience jt q ∧
    (pyTruthy jt = false → pyTruthy q = false → detect_audience jt q = "unknown") ∧
    ((pyTruthy jt || pyTruthy q) = true →
      INSURER_KEYWORDS.any (fun k => pyIn k (audienceText jt q)) = true →
      detect_audience jt q = "insurer") ∧
    ((pyTruthy jt || pyTruthy q) = true →
      INSURER_KEYWORDS.any (fun k => pyIn k (audienceText jt q)) = false →
      INVESTOR_KEYWORDS.any (fun k => pyIn k (audienceText jt q)) = true →
      detect_audience jt q = "investor") ∧
    ((pyTruthy jt || pyTruthy q) = true →
      INSURER_KEYWORDS.any (fun k => pyIn k (audienceText jt q)) = false →
      INVESTOR_KEYWORDS.any (fun k => pyIn k (audienceText jt q)) = false →
      POLICYMAKER_KEYWORDS.any (fun k => pyIn k (audienceText jt q)) = true →
      detect_audience jt q = "policymaker") ∧
    ((pyTruthy jt || pyTruthy q) = true →
      INSURER_KEYWORDS.any (fun k => pyIn k (audienceText jt q)) = false →
      INVESTOR_KEYWORDS.any (fun k => pyIn k (audienceText jt q)) = false →
      POLICYMAKER_KEYWORDS.any (fun k => pyIn k (audienceText jt q)) = false →
      EMPLOYER_KEYWORDS.any (fun k => pyIn k (audienceText jt q)) = true →
      detect_audience jt q = "employer") ∧
    ((pyTruthy jt || pyTruthy q) = true →
      INSURER_KEYWORDS.any (fun k => pyIn k (audienceText jt q)) = false →
      INVESTOR_KEYWORDS.any (fun k => pyIn k (audienceText jt q)) = false →
      POLICYMAKER_KEYWORDS.any (fun k => pyIn k (audienceText jt q)) = false →
      EMPLOYER_KEYWORDS.any (fun k => pyIn k (audienceText jt q)) = false →
      detect_audience jt q = "worker") := by
  refine ⟨?_, ?_, rfl, ?_, ?_, ?_, ?_, ?_, ?_⟩
  · intro h
    show (if AUDIENCE_TYPES.contains a = true then a else detect_audience jt q) = a
    rw [h]
    rfl
  · intro h
    show (if AUDIENCE_TYPES.contains a = true then a else detect_audience jt q) =
      detect_audience jt q
    rw [h]
    rfl
  · intro h1 h2; simp [detect_audience, h1, h2]
  · intro h0 h1
    have hg : (!pyTruthy jt && !pyTruthy q) = false := by
      cases hjt : pyTruthy jt <;> cases hq : pyTruthy q <;> simp_all
    simp [detect_audience, hg, h1]
  · intro h0 h1 h2
    have hg : (!pyTruthy jt && !pyTruthy q) = false := by
      cases hjt : pyTruthy jt <;> cases hq : pyTruthy q <;> simp_all
    simp [detect_audience, hg, h1, h2]
  · intro h0 h1 h2 h3
    have hg : (!pyTruthy jt && !pyTruthy q) = false := by
      cases hjt : pyTruthy jt <;> cases hq : pyTruthy q <;> simp_all
    simp [detect_audience, hg, h1, h2, h3]
  · intro h0 h1 h2 h3 h4
    have hg : (!pyTruthy jt && !pyTruthy q) = false := by
      cases hjt : pyTruthy jt <;> cases hq : pyTruthy q <;> simp_all
    simp [detect_audience, hg, h1, h2, h3, h4]
  · intro h0 h1 h2 h3 h4
    have hg : (!pyTruthy jt && !pyTruthy q) = false := by
      cases hjt : pyTruthy jt <;> cases hq : pyTruthy q <;> simp_all
    simp [detect_audience, hg, h1, h2, h3, h4]

/-- C9 witness: a recognized caller-supplied audience is used verbatim, and
the keyword heuristic classifies a fund-manager job title as `investor`. -/
theorem c9_audience_witness :
    resolve_audience (some "policymaker") none none = "policymaker" ∧
    detect_audience (some "fund manager") (some "what should I expect") = "investor" := by
  constructor
  · exact (c9_audience_amended "policymaker" none none).1 (by decide)
  · exact (c9_audience_amended "worker" (some "fund manager")
      (some "what should I expect")).2.2.2.2.2.1 (by decide) (by decide) (by decide)

/-- C9 counterexample: with no caller audience, an empty question and no job
title, no keyword set matches, yet the resolved audience is `unknown`, not
the `worker` default the claim states. -/
theorem c9_audience_counterexample :
    resolve_audience none none (some "") = "unknown" ∧
    "unknown" ≠ "worker" ∧
    INSURER_KEYWORDS.any (fun k => pyIn k (audienceText none (some ""))) = false ∧
    INVESTOR_KEYWORDS.any (fun k => pyIn k (audienceText none (some ""))) = false ∧
    POLICYMAKER_KEYWORDS.any (fun k => pyIn k (audienceText none (some ""))) = false ∧
    EMPLOYER_KEYWORDS.any (fun k => pyIn k (audienceText none (some ""))) = false := by
  decide

/-- C7: with both a (non-empty) state and disaster type supplied, the
retriever's metadata filter is the fixed `$or` of a state tag test, a
disaster tag test and the eight cross-cutting categories, and it admits a
chunk iff the chunk is tagged with that state, or tagged with that disaster
type, or carries a whitelist category; the no-filter branch is taken exactly
when neither filter is truthy. -/
theorem c7_filter_confirmed (s d : String) (hs : s ≠ "") (hd : d ≠ "") (m : ChunkMeta) :
    retrieveWhere (some s) (some d) = some (bothFilter s d) ∧
    (orFilter (bothFilter s d) m = true ↔
      m.state = some s ∨ m.disaster_type = some d ∨
        m.category ∈ CROSS_CUTTING_CATEGORIES) ∧
    (∀ s2 d2 : Option String,
      retrieveWhere s2 d2 = none ↔ pyTruthy s2 = false ∧ pyTruthy d2 = false) := by
  refine ⟨?_, ?_, ?_⟩
  · have hs0 : s.isEmpty = false := by
      rw [Bool.eq_false_iff]
      intro h
      exact hs ((String.isEmpty_iff s).mp h)
    have hd0 : d.isEmpty = false := by
      rw [Bool.eq_false_iff]
      intro h
      exact hd ((String.isEmpty_iff d).mp h)
    simp [retrieveWhere, pyTruthy, hs0, hd0]
  · simp only [bothFilter, CROSS_CUTTING_CATEGORIES, List.map_cons, List.map_nil,
      List.cons_append, List.nil_append, orFilter, List.any_cons, List.any_nil,
      condHolds, Bool.or_eq_true, beq_iff_eq, List.mem_cons, List.not_mem_nil,
      or_false]
    tauto
  · intro s2 d2
    unfold retrieveWhere
    split_ifs with h1 h2 h3 <;> simp_all [Bool.and_eq_true]

/-- C7 witness: with `state="CA"`, `disaster_type="wildfire"`, an untagged
general chunk matches no disjunct of the filter, while a CA-tagged chunk
matches; the no-filter branch characterization is instantiated too. -/
theorem c7_filter_witness :
    (retrieveWhere (some "CA") (some "wildfire") = some (bothFilter "CA" "wildfire") ∧
      (orFilter (bothFilter "CA" "wildfire") metaGeneral = true ↔
        metaGeneral.state = some "CA" ∨ metaGeneral.disaster_type = some "wildfire" ∨
          metaGeneral.category ∈ CROSS_CUTTING_CATEGORIES) ∧
      (∀ s2 d2 : Option String,
        retrieveWhere s2 d2 = none ↔ pyTruthy s2 = false ∧ pyTruthy d2 = false)) ∧
    orFilter (bothFilter "CA" "wildfire") metaGeneral = false ∧
    orFilter (bothFilter "CA" "wildfire") metaCA = true := by
  refine ⟨c7_filter_confirmed "CA" "wildfire" (by decide) (by decide) metaGeneral, by decide,
    by decide⟩

theorem retrieveChunks_length_le (docs : List String) (metas : List ChunkMeta)
    (dists : List ℚ) : (retrieveChunks docs metas dists).length ≤ docs.length := by
  simp [retrieveChunks]

theorem retrieveChunks_sim :
    ∀ (docs : List String) (metas : List ChunkMeta) (dists : List ℚ),
      metas.length = docs.length → dists.length = docs.length →
      (retrieveChunks docs metas dists).map (fun c => c.similarity) =
        dists.map (fun t => pyRound 4 (1 - t))
  | [], _, dists, _, hd => by
    have hnil : dists = [] := List.length_eq_zero.mp hd
    subst hnil
    simp [retrieveChunks]
  | _ :: _, [], _, hm, _ => by simp at hm
  | _ :: _, _ :: _, [], _, hd => by simp at hd
  | x :: xs, m :: ms, t :: ts, hm, hd => by
    have ih := retrieveChunks_sim xs ms ts (by simpa using hm) (by simpa using hd)
    simp only [retrieveChunks, List.zip_cons_cons, List.map_cons] at ih ⊢
    rw [ih]

/-- C4 (amended): each returned chunk's similarity equals
`round(1 − distance, 4)` and — given the index's cosine distances lie in
`[0, 2]` — lies in `[−1, 1]` (not `[0, 1]`: a distance above 1 yields a
negative similarity and the code never clamps); the list is ordered by
non-increasing similarity and its length is at most `k`. -/
theorem c4_retrieve_amended (docs : List String) (metas : List ChunkMeta) (dists : List ℚ)
    (k count : Nat)
    (hm : metas.length = docs.length) (hd : dists.length = docs.length)
    (hn : docs.length ≤ nResults k count)
    (hsort : dists.Chain' (· ≤ ·))
    (hrange : ∀ t ∈ dists, 0 ≤ t ∧ t ≤ 2) :
    (retrieveChunks docs metas dists).length ≤ k ∧
    (retrieveChunks docs metas dists).map (fun c => c.similarity) =
      dists.map (fun t => pyRound 4 (1 - t)) ∧
    (∀ c ∈ retrieveChunks docs metas dists, -1 ≤ c.similarity ∧ c.similarity ≤ 1) ∧
    (retrieveChunks docs metas dists).Chain' (fun a b => b.similarity ≤ a.similarity) := by
  have hmap := retrieveChunks_sim docs metas dists hm hd
  refine ⟨?_, hmap, ?_, ?_⟩
  · exact le_trans (le_trans (retrieveChunks_length_le docs metas dists) hn)
      (nResults_le k count)
  · intro c hc
    have hsim : c.similarity ∈
        (retrieveChunks docs metas dists).map (fun c => c.similarity) :=
      List.mem_map_of_mem _ hc
    rw [hmap] at hsim
    rcases List.mem_map.mp hsim with ⟨t, ht, hval⟩
    obtain ⟨h0, h2⟩ := hrange t ht
    rw [← hval]
    constructor
    · calc (-1 : ℚ) = pyRound 4 (-1) := (pyRound_neg_one 4).symm
        _ ≤ pyRound 4 (1 - t) := pyRound_mono 4 (by linarith)
    · calc pyRound 4 (1 - t) ≤ pyRound 4 1 := pyRound_mono 4 (by linarith)
        _ = 1 := pyRound_one 4
  · apply (@List.chain'_map ℚ RetrievedChunk (fun s1 s2 => s2 ≤ s1)
      (fun c => c.similarity) (retrieveChunks docs metas dists)).mp
    rw [hmap]
    exact (@List.chain'_map ℚ ℚ (fun s1 s2 => s2 ≤ s1)
      (fun t => pyRound 4 (1 - t)) dists).mpr
      (hsort.imp (fun a b hab => pyRound_mono 4 (by linarith)))

/-- C4 witness: a single CA-tagged chunk at cosine distance `1/4` under
`k = 3`, index size 7: similarity `0.75`, bounds and ordering hold. -/
theorem c4_retrieve_witness :
    (retrieveChunks ["flood aid"] [metaCA] [1/4]).length ≤ 3 ∧
    (retrieveChunks ["flood aid"] [metaCA] [1/4]).map (fun c => c.similarity) =
      [1/4].map (fun t => pyRound 4 (1 - t)) ∧
    (∀ c ∈ retrieveChunks ["flood aid"] [metaCA] [1/4],
      -1 ≤ c.similarity ∧ c.similarity ≤ 1) ∧
    (retrieveChunks ["flood aid"] [metaCA] [1/4]).Chain'
      (fun a b => b.similarity ≤ a.similarity) := by
  refine c4_retrieve_amended ["flood aid"] [metaCA] [1/4] 3 7 (by decide) (by decide)
    (by decide) (by simp) ?_
  intro t ht
  rw [List.mem_singleton] at ht
  subst ht
  norm_num

/-- C4 counterexample: a legitimate cosine distance of `3/2` (cosine
distances range over `[0, 2]`) yields similarity `−0.5`, outside the `[0, 1]`
interval the claim asserts. -/
theorem c4_retrieve_counterexample :
    (retrieveChunks ["doc"] [metaGeneral] [3/2]).map (fun c => c.similarity) =
      [-(1/2)] ∧
    ((0 : ℚ) ≤ 3/2 ∧ (3/2 : ℚ) ≤ 2) ∧
    ¬(0 ≤ (-(1/2) : ℚ)) := by
  refine ⟨?_, by norm_num, by norm_num⟩
  have hv : pyRound 4 (1 - 3/2) = -(1/2) := by
    unfold pyRound
    have hx : ((1 : ℚ) - 3/2) * (10 : ℚ) ^ 4 = ((-5000 : ℤ) : ℚ) := by norm_num
    rw [hx, roundHalfEven_intCast]
    norm_num
  simp [retrieveChunks, hv]

/-- C3 (amended): a question matching both the top-risk and the portfolio
keyword sets resolves to the top-risk ranking operation only when it also
contains one of the geographic-scope keywords (city, state, combined,
overall, weighted, 10, 5, ten, five); with such a keyword rule 1 wins over
rule 3 regardless of the portfolio match; without one the question falls
past rule 1 and can resolve to the portfolio operation. -/
theorem c3_precedence_amended (q : String) (state dtype : Option String) (db : Db)
    (h1 : matchKw q TOP_RANK_KEYWORDS = true)
    (h2 : SCOPE_KEYWORDS.any (fun kw => pyIn kw (pyLower q)) = true)
    (hp : matchKw q PORTFOLIO_KEYWORDS = true) :
    route_and_query q state dtype db = query_top_risk_combos 10 db := by
  unfold route_and_query
  rw [h1, h2]
  simp

/-- C3 witness: "rank our southeast portfolio overall" matches both keyword
sets and carries the scope keyword "overall", so it routes to the top-risk
operation. -/
theorem c3_precedence_witness :
    route_and_query "rank our southeast portfolio overall" none none dbRoute =
      query_top_risk_combos 10 dbRoute := by
  exact c3_precedence_amended "rank our southeast portfolio overall" none none dbRoute
    (by decide) (by decide) (by decide)

/-- C3 counterexample: "rank our southeast portfolio" matches both the
top-risk and the portfolio keyword sets, yet — lacking a geographic-scope
keyword — `route_and_query` resolves it to the portfolio operation, whose
output on a concrete database differs from the top-risk output. -/
theorem c3_precedence_counterexample :
    matchKw "rank our southeast portfolio" TOP_RANK_KEYWORDS = true ∧
    matchKw "rank our southeast portfolio" PORTFOLIO_KEYWORDS = true ∧
    route_and_query "rank our southeast portfolio" none none dbRoute =
      query_portfolio ["FL", "GA", "NC", "SC", "VA", "AL", "MS", "TN"] "hurricane" dbRoute ∧
    route_and_query "rank our southeast portfolio" none none dbRoute ≠
      query_top_risk_combos 10 dbRoute := by
  have hc1 : (matchKw "rank our southeast portfolio" TOP_RANK_KEYWORDS &&
      SCOPE_KEYWORDS.any (fun kw => pyIn kw (pyLower "rank our southeast portfolio"))) =
        false := by decide
  have hc2 : matchKw "rank our southeast portfolio" PREPOSITION_KEYWORDS = false := by decide
  have hc3 : (matchKw "rank our southeast portfolio" PORTFOLIO_KEYWORDS &&
      !(portfolioStates "rank our southeast portfolio").isEmpty) = true := by decide
  have hst : portfolioStates "rank our southeast portfolio" =
      ["FL", "GA", "NC", "SC", "VA", "AL", "MS", "TN"] := by decide
  have hdt : portfolioDtype "rank our southeast portfolio" none = "hurricane" := by decide
  have hroute : route_and_query "rank our southeast portfolio" none none dbRoute =
      query_portfolio ["FL", "GA", "NC", "SC", "VA", "AL", "MS", "TN"] "hurricane" dbRoute := by
    unfold route_and_query
    rw [hc1, hc2, hc3, hst, hdt]
    simp
  refine ⟨by decide, by decide, hroute, ?_⟩
  rw [hroute]
  norm_num +decide [query_portfolio, portfolioRows, portfolioLine, query_top_risk_combos,
    topRiskRows, topRiskPairs, riskRowOfGroup, riskRowLines, eiKey, uniqueKeys, sortDescBy,
    insertDescBy, qSum, qAvg, qMaxD, qMinD, sqliteRound, roundHalfAway, fmtFloat, fmtFloatNN,
    fmtOptFloat, fmtFixed0, roundHalfEven, digitsFixed, trimZeros, padRight, padLeft, pyTitle,
    pyTitleGo, pyReplaceChar, pyLower, pyUpper, dbRoute, List.filter_cons, List.filterMap_cons,
    List.flatMap_cons, List.flatMap_nil]

/-- C8 (amended): the portfolio rule resolves its state list from the fixed
region table first, falling back to two-letter code extraction filtered
against the 51-entry valid-code set; but when no states resolve the
portfolio rule merely contributes nothing and evaluation continues with the
lower-precedence rules (variance, demand-surge, sector ranking) — the
request reaches semantic-only context only when those also decline, not
unconditionally as the claim states. -/
theorem c8_portfolio_amended (q : String) (state dtype : Option String) (db : Db)
    (h1 : (matchKw q TOP_RANK_KEYWORDS &&
      SCOPE_KEYWORDS.any (fun kw => pyIn kw (pyLower q))) = false)
    (h2 : matchKw q PREPOSITION_KEYWORDS = false)
    (hp : matchKw q PORTFOLIO_KEYWORDS = true)
    (hs : portfolioStates q = []) :
    (ALL_STATES.length = 51 ∧ ALL_STATES.Nodup) ∧
    (∀ t : String, extract_region_states t ≠ [] →
      portfolioStates t = extract_region_states t) ∧
    (∀ t : String, extract_region_states t = [] → portfolioStates t = extract_states t) ∧
    route_and_query q state dtype db = routeTail q state dtype db := by
  refine ⟨by decide, ?_, ?_, ?_⟩
  · intro t ht
    have : (extract_region_states t).isEmpty = false := by
      rw [List.isEmpty_eq_false]
      exact ht
    simp [portfolioStates, this]
  · intro t ht
    simp [portfolioStates, ht]
  · unfold route_and_query routeTail
    rw [h1, h2, hs]
    simp

/-- C8 witness: "how reliable is our portfolio" matches the portfolio
keywords but resolves no states (no region name, no valid two-letter code),
and routing proceeds to the later rules. -/
theorem c8_portfolio_witness :
    (ALL_STATES.length = 51 ∧ ALL_STATES.Nodup) ∧
    (∀ t : String, extract_region_states t ≠ [] →
      portfolioStates t = extract_region_states t) ∧
    (∀ t : String, extract_region_states t = [] → portfolioStates t = extract_states t) ∧
    route_and_query "how reliable is our portfolio" none none dbRoute =
      routeTail "how reliable is our portfolio" none none dbRoute := by
  exact c8_portfolio_amended "how reliable is our portfolio" none none dbRoute
    (by decide) (by decide) (by decide) (by decide)

/-- C8 counterexample: for "how reliable is our portfolio" the portfolio
rule matches and resolves no states, yet the classifier still contributes a
structured query — the variance rule fires and returns a non-empty result —
contradicting the claim that the request falls through to semantic-only
context. -/
theorem c8_portfolio_counterexample :
    matchKw "how reliable is our portfolio" PORTFOLIO_KEYWORDS = true ∧
    portfolioStates "how reliable is our portfolio" = [] ∧
    route_and_query "how reliable is our portfolio" none none dbRoute =
      query_variance dbRoute ∧
    query_variance dbRoute ≠ .ok "" := by
  have hc1 : (matchKw "how reliable is our portfolio" TOP_RANK_KEYWORDS &&
      SCOPE_KEYWORDS.any (fun kw => pyIn kw (pyLower "how reliable is our portfolio"))) =
        false := by decide
  have hc2 : matchKw "how reliable is our portfolio" PREPOSITION_KEYWORDS = false := by
    decide
  have hs : portfolioStates "how reliable is our portfolio" = [] := by decide
  have hv : matchKw "how reliable is our portfolio" VARIANCE_KEYWORDS = true := by decide
  refine ⟨by decide, hs, ?_, ?_⟩
  · unfold route_and_query
    rw [hc1, hc2, hs, hv]
    simp
  · norm_num +decide [query_variance, varianceRows, varianceLine, reliabilityLabel,
      uniqueKeys, sortDescBy, insertDescBy, qSum, qAvg, qMaxD, qMinD, sqliteRound,
      roundHalfAway, fmtFloat, fmtFloatNN, digitsFixed, trimZeros, padRight, padLeft,
      dbRoute, List.filter_cons, List.filterMap_cons]

/-- C10 (confirmed): when the portfolio rule matches and a state list
resolves, but neither the caller-supplied disaster type is truthy nor any
disaster keyword occurs in the question, the portfolio query's disaster type
silently defaults to "hurricane". -/
theorem c10_default_hurricane_confirmed (q : String) (state dtype : Option String) (db : Db)
    (h1 : (matchKw q TOP_RANK_KEYWORDS &&
      SCOPE_KEYWORDS.any (fun kw => pyIn kw (pyLower q))) = false)
    (h2 : matchKw q PREPOSITION_KEYWORDS = false)
    (hp : matchKw q PORTFOLIO_KEYWORDS = true)
    (hs : portfolioStates q ≠ [])
    (hd : pyTruthy dtype = false)
    (hx : extract_disaster q = none) :
    route_and_query q state dtype db =
      query_portfolio (portfolioStates q) "hurricane" db := by
  have hs' : (portfolioStates q).isEmpty = false := by
    rw [List.isEmpty_eq_false]
    exact hs
  have hdt : portfolioDtype q dtype = "hurricane" := by
    unfold portfolioDtype pyOrOpt
    rw [hd, hx]
    simp
  unfold route_and_query
  rw [h1, h2, hp, hs', hdt]
  simp

/-- C10 witness: "our southeast portfolio" with no caller disaster type and
no disaster keyword defaults the portfolio query to "hurricane". -/
theorem c10_default_hurricane_witness :
    route_and_query "our southeast portfolio" none none dbRoute =
      query_portfolio (portfolioStates "our southeast portfolio") "hurricane" dbRoute := by
  exact c10_default_hurricane_confirmed "our southeast portfolio" none none dbRoute
    (by decide) (by decide) (by decide) (by decide) (by decide) (by decide)

theorem reliabilityLabel_iff (x : ℚ) :
    (reliabilityLabel x = "HIGH variance" ↔ 9 < x) ∧
    (reliabilityLabel x = "MEDIUM variance" ↔ 4 < x ∧ x ≤ 9) ∧
    (reliabilityLabel x = "LOW variance" ↔ x ≤ 4) := by
  unfold reliabilityLabel
  split_ifs with h1 h2
  · refine ⟨⟨fun _ => h1, fun _ => rfl⟩, ?_, ?_⟩
    · exact ⟨fun h => absurd h (by decide), fun h => absurd h1 (not_lt.mpr h.2)⟩
    · exact ⟨fun h => absurd h (by decide), fun h => absurd h1 (not_lt.mpr (by linarith))⟩
  · refine ⟨?_, ⟨fun _ => ⟨h2, le_of_not_lt h1⟩, fun _ => rfl⟩, ?_⟩
    · exact ⟨fun h => absurd h (by decide), fun h => absurd h h1⟩
    · exact ⟨fun h => absurd h (by decide), fun h => absurd h2 (not_lt.mpr h)⟩
  · refine ⟨?_, ?_, ⟨fun _ => le_of_not_lt h2, fun _ => rfl⟩⟩
    · exact ⟨fun h => absurd h (by decide), fun h => absurd h h1⟩
    · exact ⟨fun h => absurd h (by decide), fun h => absurd h.1 h2⟩

/-- C6 (amended): `query_variance` never includes a sector with fewer than 2
qualifying (non-null `recovery_months`) data points, and classifies each
included sector using the rounded range `range_months = ROUND(max − min, 1)`:
HIGH when the rounded range exceeds 9, MEDIUM when it exceeds 4, LOW
otherwise (the thresholds compare the rounded value, not the exact range). -/
theorem c6_variance_amended (db : Db) (r : VarianceRow) (hr : r ∈ varianceRows db) :
    2 ≤ r.n_data_points ∧
    r.n_data_points = (db.employment_impact.filter (fun e =>
      decide (e.sector = r.sector) && e.recovery_months.isSome)).length ∧
    (∃ r0 rest, (db.employment_impact.filter (fun e =>
        decide (e.sector = r.sector) && e.recovery_months.isSome)).filterMap
        (fun e => e.recovery_months) = r0 :: rest ∧
      r.range_months = sqliteRound 1 (qMaxD r0 rest - qMinD r0 rest)) ∧
    (reliabilityLabel r.range_months = "HIGH variance" ↔ 9 < r.range_months) ∧
    (reliabilityLabel r.range_months = "MEDIUM variance" ↔
      4 < r.range_months ∧ r.range_months ≤ 9) ∧
    (reliabilityLabel r.range_months = "LOW variance" ↔ r.range_months ≤ 4) := by
  simp only [varianceRows, mem_sortDescBy, List.mem_filterMap] at hr
  rcases hr with ⟨sec, hsec, hbody⟩
  split at hbody
  next => exact absurd hbody (by simp)
  next r0 rest hrecs =>
    split at hbody
    next hn =>
      have heq := Option.some.inj hbody
      subst heq
      have hlab := reliabilityLabel_iff (sqliteRound 1 (qMaxD r0 rest - qMinD r0 rest))
      refine ⟨hn, ?_, ⟨r0, rest, ?_, rfl⟩, hlab.1, hlab.2.1, hlab.2.2⟩
      · rw [List.filter_filter]
      · rw [List.filter_filter] at hrecs
        exact hrecs
    next hn => exact absurd hbody (by simp)

/-- C6 witness: on `dbRange` the Logistics sector has exactly 2 qualifying
rows and the amended classification holds for its computed row. -/
theorem c6_variance_witness :
    2 ≤ vrRange.n_data_points ∧
    vrRange.n_data_points = (dbRange.employment_impact.filter (fun e =>
      decide (e.sector = vrRange.sector) && e.recovery_months.isSome)).length ∧
    (∃ r0 rest, (dbRange.employment_impact.filter (fun e =>
        decide (e.sector = vrRange.sector) && e.recovery_months.isSome)).filterMap
        (fun e => e.recovery_months) = r0 :: rest ∧
      vrRange.range_months = sqliteRound 1 (qMaxD r0 rest - qMinD r0 rest)) ∧
    (reliabilityLabel vrRange.range_months = "HIGH variance" ↔ 9 < vrRange.range_months) ∧
    (reliabilityLabel vrRange.range_months = "MEDIUM variance" ↔
      4 < vrRange.range_months ∧ vrRange.range_months ≤ 9) ∧
    (reliabilityLabel vrRange.range_months = "LOW variance" ↔ vrRange.range_months ≤ 4) := by
  have hmem : vrRange ∈ varianceRows dbRange := by
    norm_num +decide [vrRange, varianceRows, dbRange, uniqueKeys, sortDescBy, insertDescBy,
      qSum, qAvg, qMaxD, qMinD, sqliteRound, roundHalfAway, List.filter_cons,
      List.filterMap_cons]
  exact c6_variance_amended dbRange vrRange hmem

/-- C6 counterexample: on `dbRange` the exact recovery range is
`10.04 − 1 = 9.04 > 9`, so the claim's classification of
`range = max − min` would be HIGH, but the query classifies the rounded
range 9.0 as MEDIUM. -/
theorem c6_variance_counterexample :
    (varianceRows dbRange).map
      (fun r => (r.sector, r.range_months, reliabilityLabel r.range_months)) =
      [("Logistics", 9, "MEDIUM variance")] ∧
    (9 : ℚ) < 251/25 - 1 := by
  constructor
  · norm_num +decide [varianceRows, dbRange, reliabilityLabel, uniqueKeys, sortDescBy,
      insertDescBy, qSum, qAvg, qMaxD, qMinD, sqliteRound, roundHalfAway, List.filter_cons,
      List.filterMap_cons]
  · norm_num

theorem forecast_filter_length_le_one (dfs : List ForecastRow) (st dt : String)
    (hu : dfs.Pairwise
      (fun f1 f2 => ¬(f1.state = f2.state ∧ f1.disaster_type = f2.disaster_type))) :
    (dfs.filter (fun df =>
      decide (df.state = st ∧ df.disaster_type = dt) && df.avg_next_12.isSome)).length ≤ 1 := by
  induction dfs with
  | nil => simp
  | cons a as ih =>
    rw [List.pairwise_cons] at hu
    rw [List.filter_cons]
    by_cases ha : (decide (a.state = st ∧ a.disaster_type = dt) && a.avg_next_12.isSome) = true
    · rw [if_pos ha]
      simp only [Bool.and_eq_true, decide_eq_true_eq] at ha
      have hnil : as.filter (fun df =>
          decide (df.state = st ∧ df.disaster_type = dt) && df.avg_next_12.isSome) = [] := by
        rw [List.filter_eq_nil_iff]
        intro b hb hbtrue
        simp only [Bool.and_eq_true, decide_eq_true_eq] at hbtrue
        exact hu.1 b hb ⟨ha.1.1.trans hbtrue.1.1.symm, ha.1.2.trans hbtrue.1.2.symm⟩
      rw [hnil]
      simp
    · rw [if_neg ha]
      exact ih hu.2

theorem topRisk_inner_eq (dfs : List ForecastRow) (e : EmploymentRow) (st sec dt : String) :
    ((((dfs.filter (fun df =>
          decide (df.state = e.state ∧ df.disaster_type = e.disaster_type))).map
        (fun df => (e, df))).filter
        (fun p => p.1.job_loss_pct.isSome && p.2.avg_next_12.isSome)).filter
      (fun p => decide (eiKey p.1 = (st, sec, dt)))) =
    (if decide (e.state = st ∧ e.sector = sec ∧ e.disaster_type = dt) &&
        e.job_loss_pct.isSome then
      (dfs.filter (fun df =>
        decide (df.state = st ∧ df.disaster_type = dt) && df.avg_next_12.isSome)).map
        (fun df => (e, df))
    else []) := by
  rw [List.filter_filter, List.filter_map, List.filter_filter]
  by_cases hkey : e.state = st ∧ e.sector = sec ∧ e.disaster_type = dt
  · by_cases hloss : e.job_loss_pct.isSome = true
    · rw [if_pos (by simp [hkey, hloss])]
      refine congrArg (List.map (fun df => (e, df))) (List.filter_congr ?_)
      intro a ha
      simp [eiKey, Prod.ext_iff, hkey.1, hkey.2.1, hkey.2.2, hloss, Bool.and_comm]
    · rw [if_neg (by simp [hloss])]
      simp only [List.map_eq_nil_iff, List.filter_eq_nil_iff]
      intro a ha
      simp [hloss]
  · rw [if_neg (by simp [hkey])]
    simp only [List.map_eq_nil_iff, List.filter_eq_nil_iff]
    intro a ha
    simp only [Function.comp, eiKey, Prod.ext_iff, Bool.and_eq_true, decide_eq_true_eq,
      not_and]
    intro h1
    exact absurd h1.1 (fun hcontra => hkey hcontra)

theorem topRisk_group_eq (eis : List EmploymentRow) (dfs : List ForecastRow)
    (hu : dfs.Pairwise
      (fun f1 f2 => ¬(f1.state = f2.state ∧ f1.disaster_type = f2.disaster_type)))
    (st sec dt : String) :
    (topRiskPairs ⟨eis, dfs⟩).filter (fun p => decide (eiKey p.1 = (st, sec, dt))) =
      (match forecastFor ⟨eis, dfs⟩ st dt with
        | none => []
        | some f => (eiQual ⟨eis, dfs⟩ st sec dt).map (fun e => (e, f))) := by
  induction eis with
  | nil =>
    rcases hF : forecastFor ⟨[], dfs⟩ st dt with _ | f <;>
      simp [topRiskPairs, eiQual]
  | cons e eis ih =>
    have hsplit : (topRiskPairs ⟨e :: eis, dfs⟩).filter
        (fun p => decide (eiKey p.1 = (st, sec, dt))) =
        ((((dfs.filter (fun df =>
              decide (df.state = e.state ∧ df.disaster_type = e.disaster_type))).map
            (fun df => (e, df))).filter
            (fun p => p.1.job_loss_pct.isSome && p.2.avg_next_12.isSome)).filter
          (fun p => decide (eiKey p.1 = (st, sec, dt)))) ++
        (topRiskPairs ⟨eis, dfs⟩).filter (fun p => decide (eiKey p.1 = (st, sec, dt))) := by
      simp only [topRiskPairs, List.flatMap_cons, List.filter_append]
    rw [hsplit, topRisk_inner_eq, ih]
    have hff : forecastFor ⟨e :: eis, dfs⟩ st dt = forecastFor ⟨eis, dfs⟩ st dt := rfl
    rcases hF : forecastFor ⟨eis, dfs⟩ st dt with _ | f
    · have hFnil : dfs.filter (fun df =>
          decide (df.state = st ∧ df.disaster_type = dt) && df.avg_next_12.isSome) = [] := by
        have hh := hF
        unfold forecastFor at hh
        exact List.head?_eq_none_iff.mp hh
      rw [hff, hF, hFnil]
      simp
    · have hFcons := hF
      unfold forecastFor at hFcons
      have hlen := forecast_filter_length_le_one dfs st dt hu
      have hFone : dfs.filter (fun df =>
          decide (df.state = st ∧ df.disaster_type = dt) && df.avg_next_12.isSome) = [f] := by
        rcases hFl : dfs.filter (fun df =>
            decide (df.state = st ∧ df.disaster_type = dt) && df.avg_next_12.isSome) with
          _ | ⟨f0, rest⟩
        · rw [hFl] at hFcons
          simp at hFcons
        · rw [hFl] at hFcons hlen
          simp only [List.head?_cons, Option.some.injEq] at hFcons
          subst hFcons
          simp only [List.length_cons] at hlen
          have hrest : rest = [] := by
            rw [← List.length_eq_zero]
            omega
          rw [hFl, hrest]
      rw [hff, hF, hFone]
      by_cases hpred : (decide (e.state = st ∧ e.sector = sec ∧ e.disaster_type = dt) &&
          e.job_loss_pct.isSome) = true
      · have hP : (e.state = st ∧ e.sector = sec ∧ e.disaster_type = dt) ∧
            e.job_loss_pct.isSome = true := by simpa using hpred
        simp [eiQual, List.filter_cons, hpred, hP]
      · have hP : ¬((e.state = st ∧ e.sector = sec ∧ e.disaster_type = dt) ∧
            e.job_loss_pct.isSome = true) := by simpa using hpred
        simp [eiQual, List.filter_cons, hpred, hP]

theorem filterMap_filter_isSome (l : List EmploymentRow) (p : EmploymentRow → Bool) :
    (l.filter (fun e => p e && e.job_loss_pct.isSome)).filterMap (fun e => e.job_loss_pct) =
      (l.filter p).filterMap (fun e => e.job_loss_pct) := by
  induction l with
  | nil => rfl
  | cons a as ih =>
    rw [List.filter_cons, List.filter_cons]
    by_cases hp : p a = true
    · by_cases hs : a.job_loss_pct.isSome = true
      · simp [hp, hs, List.filterMap_cons, ih]
      · have hnone : a.job_loss_pct = none :=
          Option.not_isSome_iff_eq_none.mp (by simpa using hs)
        simp [hp, hs, List.filterMap_cons, hnone, ih]
    · simp [hp, ih]

/-- C1 (amended): for every `N` and any loaded data whose forecast table has
at most one row per `(state, disaster_type)` (the documented shape),
`query_top_risk_combos(limit=N)` returns at most `N` rows, sorted
non-increasingly by `risk_score`, where `risk_score` is
`ROUND(mean(job_loss_pct) × avg_next_12, 1)` — the exact product rounded to
one decimal, which is what SQL computes and sorts by; the mean ranges over
exactly the group's non-null `job_loss_pct` values joined to a forecast with
non-null `avg_next_12`, so null rows are excluded rather than zero-filled. -/
theorem c1_top_risk_combos_amended (db : Db) (N : Nat) (hu : forecastKeyUnique db) :
    (topRiskRows db N).length ≤ N ∧
    (topRiskRows db N).Pairwise (fun a b => b.risk_score ≤ a.risk_score) ∧
    (∀ r ∈ topRiskRows db N, ∃ f ∈ db.disaster_forecast,
      f.state = r.state ∧ f.disaster_type = r.disaster_type ∧
      ∃ a, f.avg_next_12 = some a ∧
        lossesOfKey db r.state r.sector r.disaster_type ≠ [] ∧
        r.avg_loss_pct = sqliteRound 1
          (qSum (lossesOfKey db r.state r.sector r.disaster_type) /
            ((lossesOfKey db r.state r.sector r.disaster_type).length : ℚ)) ∧
        r.freq_per_month = sqliteRound 2 a ∧
        r.risk_score = sqliteRound 1
          (qSum (lossesOfKey db r.state r.sector r.disaster_type) /
            ((lossesOfKey db r.state r.sector r.disaster_type).length : ℚ) * a)) := by
  refine ⟨?_, ?_, ?_⟩
  · unfold topRiskRows
    exact List.length_take_le N _
  · unfold topRiskRows
    exact List.Pairwise.sublist (List.take_sublist _ _) (pairwise_sortDescBy _ _)
  · intro r hr
    unfold topRiskRows at hr
    have hr2 := List.mem_of_mem_take hr
    rw [mem_sortDescBy] at hr2
    rcases List.mem_filterMap.mp hr2 with ⟨k, hk, hbody⟩
    rcases k with ⟨st, sec, dt⟩
    have hgroup : (topRiskPairs db).filter (fun p => decide (eiKey p.1 = (st, sec, dt))) =
        (match forecastFor db st dt with
          | none => []
          | some f => (eiQual db st sec dt).map (fun e => (e, f))) :=
      topRisk_group_eq db.employment_impact db.disaster_forecast hu st sec dt
    rw [hgroup] at hbody
    rcases hF : forecastFor db st dt with _ | f
    · rw [hF] at hbody
      simp [riskRowOfGroup] at hbody
    · rw [hF] at hbody
      have hfprops : f ∈ db.disaster_forecast ∧ f.state = st ∧ f.disaster_type = dt ∧
          f.avg_next_12.isSome = true := by
        have hh := hF
        unfold forecastFor at hh
        rcases hFl : db.disaster_forecast.filter (fun df =>
            decide (df.state = st ∧ df.disaster_type = dt) && df.avg_next_12.isSome) with
          _ | ⟨f0, rest⟩
        · rw [hFl] at hh
          simp at hh
        · rw [hFl] at hh
          simp only [List.head?_cons, Option.some.injEq] at hh
          have hf0 : f0 ∈ db.disaster_forecast.filter (fun df =>
              decide (df.state = st ∧ df.disaster_type = dt) && df.avg_next_12.isSome) := by
            rw [hFl]
            exact List.mem_cons_self f0 rest
          rcases List.mem_filter.mp hf0 with ⟨hmem, hpred⟩
          simp only [Bool.and_eq_true, decide_eq_true_eq] at hpred
          rw [← hh]
          exact ⟨hmem, hpred.1.1, hpred.1.2, hpred.2⟩
      rcases Option.isSome_iff_exists.mp hfprops.2.2.2 with ⟨a, ha⟩
      rcases hq : eiQual db st sec dt with _ | ⟨e0, es⟩
      · rw [hq] at hbody
        simp [riskRowOfGroup] at hbody
      · rw [hq] at hbody
        simp only [List.map_cons, riskRowOfGroup] at hbody
        have heq := Option.some.inj hbody
        subst heq
        have hL : ((e0, f) :: es.map (fun e => (e, f))).filterMap
            (fun p => p.1.job_loss_pct) = lossesOfKey db st sec dt := by
          have h1 : ((e0 :: es).map (fun e => (e, f))).filterMap
              (fun p => p.1.job_loss_pct) = lossesOfKey db st sec dt := by
            rw [List.filterMap_map]
            have hcomp : ((fun p : EmploymentRow × ForecastRow => p.1.job_loss_pct) ∘
                (fun e => (e, f))) = (fun e : EmploymentRow => e.job_loss_pct) := rfl
            rw [hcomp, ← hq]
            exact filterMap_filter_isSome db.employment_impact _
          exact h1
        have he0 : (decide (e0.state = st ∧ e0.sector = sec ∧ e0.disaster_type = dt) &&
            e0.job_loss_pct.isSome) = true := by
          have : e0 ∈ eiQual db st sec dt := by
            rw [hq]
            exact List.mem_cons_self e0 es
          exact (List.mem_filter.mp this).2
        have hnonnil : lossesOfKey db st sec dt ≠ [] := by
          rw [← hL]
          simp only [Bool.and_eq_true] at he0
          rcases Option.isSome_iff_exists.mp he0.2 with ⟨v, hv⟩
          simp [List.filterMap_cons, hv]
        refine ⟨f, hfprops.1, hfprops.2.1, hfprops.2.2.1, a, ha, hnonnil, ?_, ?_, ?_⟩
        · simp only [hL]
        · simp only [ha, Option.getD_some]
        · simp only [hL, ha, Option.getD_some]

/-- C1 witness: the amended statement instantiated on a concrete database
with a unique-keyed forecast table and `N = 2`. -/
theorem c1_top_risk_combos_witness :
    (topRiskRows dbRoute 2).length ≤ 2 ∧
    (topRiskRows dbRoute 2).Pairwise (fun a b => b.risk_score ≤ a.risk_score) ∧
    (∀ r ∈ topRiskRows dbRoute 2, ∃ f ∈ dbRoute.disaster_forecast,
      f.state = r.state ∧ f.disaster_type = r.disaster_type ∧
      ∃ a, f.avg_next_12 = some a ∧
        lossesOfKey dbRoute r.state r.sector r.disaster_type ≠ [] ∧
        r.avg_loss_pct = sqliteRound 1
          (qSum (lossesOfKey dbRoute r.state r.sector r.disaster_type) /
            ((lossesOfKey dbRoute r.state r.sector r.disaster_type).length : ℚ)) ∧
        r.freq_per_month = sqliteRound 2 a ∧
        r.risk_score = sqliteRound 1
          (qSum (lossesOfKey dbRoute r.state r.sector r.disaster_type) /
            ((lossesOfKey dbRoute r.state r.sector r.disaster_type).length : ℚ) * a)) := by
  exact c1_top_risk_combos_amended dbRoute 2 (by simp [forecastKeyUnique, dbRoute])

/-- C1 counterexample: on `dbRound` the single group's exact
`mean(job_loss_pct) × avg_next_12` is `5.55`, but the returned `risk_score`
is the rounded `5.6`, so the claim's exact-product equation fails. -/
theorem c1_top_risk_combos_counterexample :
    (topRiskRows dbRound 10).map (fun r => r.risk_score) = [28/5] ∧
    lossesOfKey dbRound "FL" "Services" "hurricane" = [111/20] ∧
    dbRound.disaster_forecast.map (fun f => f.avg_next_12) = [some 1] ∧
    (28/5 : ℚ) ≠ 111/20 * 1 := by
  refine ⟨?_, by norm_num +decide [lossesOfKey, dbRound, List.filter_cons,
    List.filterMap_cons], by norm_num +decide [dbRound], by norm_num⟩
  norm_num +decide [topRiskRows, topRiskPairs, dbRound, eiKey, uniqueKeys, riskRowOfGroup,
    qSum, qAvg, sortDescBy, insertDescBy, sqliteRound, roundHalfAway, List.filter_cons,
    List.filterMap_cons, List.flatMap_cons, List.flatMap_nil]
